import Mathlib

/-!
# Verification of the plant-sim simulation core

A shallow embedding of the simulation engine of the `plant-sim` repository
(`src/simulation/Grid.ts`, `src/simulation/Genome.ts`, `src/simulation/Plant.ts`,
`src/simulation/Simulation.ts`, `src/simulation/Seed.ts`), together with
theorems settling the specification claims about it.

Modelling conventions:
* JavaScript numbers are modelled by an ordered field.  The spatial grid and the
  light sweep are polymorphic over a `LinearOrderedField` with a `FloorRing`
  (instantiated at `ℚ` for concrete evaluation and at `ℝ` inside the
  simulation pipeline); the organism economy and the genome codec use `ℝ`
  because the source computes with `Math.exp`, `Math.log`, `Math.pow`,
  `Math.cos` and `Math.sin`.
* `Math.random()` is modelled by a stream `rng : ℕ → ℝ` of draws together with
  an explicitly threaded counter: every call site of `Math.random()` consumes
  the next index, exactly in source order.
* The typed arrays `shadow`/`occupied` are modelled as total functions from
  cell coordinates; `Float64Array` gene vectors are `Fin 13 → ℝ`.
-/

namespace PlantSim

/-! ## Grid (`src/simulation/Grid.ts`) -/

/-- The inclusive integer loop range `for (let i = lo; i <= hi; i++)`. -/
def intRange (lo hi : ℤ) : List ℤ :=
  (List.range (hi + 1 - lo).toNat).map fun n => lo + n

structure Grid (α : Type*) where
  width : ℤ
  height : ℤ
  shadow : ℤ → ℤ → α
  occupied : ℤ → ℤ → ℤ

variable {α : Type*} [LinearOrderedField α] [FloorRing α]

/-- Source `new Grid(width, height)`: shadow all zero, occupancy all `-1`. -/
def gridNew (α : Type*) [LinearOrderedField α] (width height : ℤ) : Grid α :=
  { width := width, height := height, shadow := fun _ _ => 0, occupied := fun _ _ => -1 }

/-- Source `Grid.inBounds`. -/
def Grid.inBounds (g : Grid α) (x y : ℤ) : Prop :=
  0 ≤ x ∧ x < g.width ∧ 0 ≤ y ∧ y < g.height

instance (g : Grid α) (x y : ℤ) : Decidable (g.inBounds x y) := by
  unfold Grid.inBounds; infer_instance

/-- Source `Grid.isOccupied`: out-of-bounds cells count as occupied. -/
def Grid.isOccupied (g : Grid α) (x y : ℤ) : Prop :=
  ¬ g.inBounds x y ∨ g.occupied x y ≠ -1

instance (g : Grid α) (x y : ℤ) : Decidable (g.isOccupied x y) := by
  unfold Grid.isOccupied; infer_instance

/-- Source `Grid.occupy`. -/
def Grid.occupy (g : Grid α) (x y plantId : ℤ) : Grid α :=
  if g.inBounds x y then
    { g with occupied := fun a b => if a = x ∧ b = y then plantId else g.occupied a b }
  else g

/-- Source `Grid.vacate`. -/
def Grid.vacate (g : Grid α) (x y : ℤ) : Grid α :=
  if g.inBounds x y then
    { g with occupied := fun a b => if a = x ∧ b = y then -1 else g.occupied a b }
  else g

/-- Source `Grid.clearShadow`. -/
def Grid.clearShadow (g : Grid α) : Grid α :=
  { g with shadow := fun _ _ => 0 }

/-- Source `Grid.stampLeafShadow`: add `opacity` to every in-rectangle cell whose
center lies within `radius` of `(cx, cy)`. -/
def Grid.stampLeafShadow (g : Grid α) (cx cy radius opacity : α) : Grid α :=
  let r : ℤ := ⌈radius⌉
  let rSq := radius * radius
  let x0 := max 0 ⌊cx - (r : α)⌋
  let y0 := max 0 ⌊cy - (r : α)⌋
  let x1 := min (g.width - 1) ⌈cx + (r : α)⌉
  let y1 := min (g.height - 1) ⌈cy + (r : α)⌉
  { g with shadow := fun x y =>
      g.shadow x y +
        if x0 ≤ x ∧ x ≤ x1 ∧ y0 ≤ y ∧ y ≤ y1 ∧
            ((x : α) - cx) * ((x : α) - cx) + ((y : α) - cy) * ((y : α) - cy) ≤ rSq then
          opacity
        else 0 }

/-- Source `Grid.getLight`: `max 0 (1 - shadow)`, zero outside the grid. -/
def Grid.getLight (g : Grid α) (x y : ℤ) : α :=
  if g.inBounds x y then max 0 (1 - g.shadow x y) else 0

/-- Source `Grid.getLitArea`: total `getLight × opacity` over the circular footprint. -/
def Grid.getLitArea (g : Grid α) (cx cy radius opacity : α) : α :=
  let r : ℤ := ⌈radius⌉
  let rSq := radius * radius
  let x0 := max 0 ⌊cx - (r : α)⌋
  let y0 := max 0 ⌊cy - (r : α)⌋
  let x1 := min (g.width - 1) ⌈cx + (r : α)⌉
  let y1 := min (g.height - 1) ⌈cy + (r : α)⌉
  (((intRange y0 y1).map fun (y : ℤ) =>
      (((intRange x0 x1).map fun (x : ℤ) =>
        if ((x : α) - cx) * ((x : α) - cx) + ((y : α) - cy) * ((y : α) - cy) ≤ rSq then
          g.getLight x y * opacity
        else 0).sum)).sum)

/-! ## The global light sweep (`Simulation.computeLightAndEnergy`)

The sweep gathers one `LeafEntry` per leaf of every living non-Seed
leaf-bearing plant, sorts them all by height (`z`) descending, and in a single
pass reads each leaf's lit area before stamping its own shadow. -/

/-- The `LeafEntry` record gathered by `computeLightAndEnergy`. -/
structure Leaf (α : Type*) where
  x : α
  y : α
  z : α
  leafSize : α
  leafOpacity : α
  photoEfficiency : α
  plantIndex : ℕ
  deriving DecidableEq

/-- Insert a leaf into a list already sorted by `z` descending, after all
entries of greater-or-equal height (a stable descending sort step, matching the
stable `allLeaves.sort((a, b) => b.z - a.z)` of the source). -/
def insertLeaf (l : Leaf α) : List (Leaf α) → List (Leaf α)
  | [] => [l]
  | h :: t => if h.z ≤ l.z then l :: h :: t else h :: insertLeaf l t

/-- Source `allLeaves.sort((a, b) => b.z - a.z)`: stable sort by height descending. -/
def sortLeaves : List (Leaf α) → List (Leaf α)
  | [] => []
  | h :: t => insertLeaf h (sortLeaves t)

/-- Stamp one gathered leaf's shadow. -/
def stampLeaf (g : Grid α) (l : Leaf α) : Grid α :=
  g.stampLeafShadow l.x l.y l.leafSize l.leafOpacity

/-- Stamp a list of leaves in order. -/
def stampList (g : Grid α) (ls : List (Leaf α)) : Grid α :=
  ls.foldl stampLeaf g

/-- The single pass of `computeLightAndEnergy`: walk the (sorted) leaf list,
pairing each leaf with the lit area it reads from the grid *before* stamping
its own shadow; returns the reads in processing order and the final grid. -/
def sweepReads (g : Grid α) : List (Leaf α) → List (Leaf α × α) × Grid α
  | [] => ([], g)
  | leaf :: rest =>
      let e := g.getLitArea leaf.x leaf.y leaf.leafSize leaf.leafOpacity
      let res := sweepReads (stampLeaf g leaf) rest
      ((leaf, e) :: res.1, res.2)

/-! ## Genome (`src/simulation/Genome.ts`) -/

/-- One row of the `TRAIT_DEFS` table. -/
structure TraitDef where
  name : String
  base : ℝ
  k : ℝ
  unit : String
  integer : Bool := false
  linear : Bool := false

noncomputable def maxHeightDef : TraitDef := { name := "maxHeight", base := 20, k := 3, unit := "cm" }

noncomputable def growthRateDef : TraitDef := { name := "growthRate", base := 0.2, k := 2, unit := "cm/tick" }

noncomputable def trunkGirthDef : TraitDef := { name := "trunkGirth", base := 2, k := 1.2, unit := "cm" }

noncomputable def leafSizeDef : TraitDef := { name := "leafSize", base := 5, k := 2, unit := "cm" }

noncomputable def leafCountDef : TraitDef := { name := "leafCount", base := 8, k := 2, unit := "", integer := true }

noncomputable def branchLengthDef : TraitDef := { name := "branchLength", base := 8, k := 2, unit := "cells" }

noncomputable def leafOpacityDef : TraitDef := { name := "leafOpacity", base := 1, k := 0, unit := "", linear := true }

noncomputable def seedRangeDef : TraitDef := { name := "seedRange", base := 2, k := 0, unit := "x", linear := true }

noncomputable def seedEnergyDef : TraitDef := { name := "seedEnergy", base := 35, k := 2, unit := "E" }

noncomputable def germinationSpeedDef : TraitDef :=
  { name := "germinationSpeed", base := 50, k := 1.5, unit := "ticks", integer := true }

noncomputable def photoEfficiencyDef : TraitDef := { name := "photoEfficiency", base := 1.0, k := 1.5, unit := "E/cell" }

noncomputable def maturityAgeDef : TraitDef := { name := "maturityAge", base := 150, k := 1.5, unit := "ticks", integer := true }

noncomputable def maxAgeDef : TraitDef := { name := "maxAge", base := 1000, k := 2, unit := "ticks", integer := true }

/-- The `TRAIT_DEFS` table, in source order. -/
noncomputable def TRAIT_DEFS : List TraitDef :=
  [maxHeightDef, growthRateDef, trunkGirthDef, leafSizeDef, leafCountDef, branchLengthDef,
   leafOpacityDef, seedRangeDef, seedEnergyDef, germinationSpeedDef, photoEfficiencyDef,
   maturityAgeDef, maxAgeDef]

abbrev GENE_COUNT : ℕ := 13

/-- A gene vector (`Float64Array` of length `GENE_COUNT`). -/
abbrev Genes : Type := Fin GENE_COUNT → ℝ

/-- Source `logit(x) = ln(clamped / (1 - clamped))` on `x` clamped to `[1e-6, 1-1e-6]`. -/
noncomputable def logit (x : ℝ) : ℝ :=
  let clamped := max (1 / 1000000) (min (1 - 1 / 1000000) x)
  Real.log (clamped / (1 - clamped))

/-- Source `sigmoid(x) = 1 / (1 + exp(-x))`. -/
noncomputable def sigmoid (x : ℝ) : ℝ :=
  1 / (1 + Real.exp (-x))

noncomputable def TRAIT_MIN : ℝ := 1 / 10000

noncomputable def TRAIT_MAX : ℝ := 10000

/-- Source `traitValue(gene, def)`: linear (`gene * base`) or logit/exponential
(`base * exp(k * logit(gene))`) mapping, clamped to `[TRAIT_MIN, TRAIT_MAX]`,
then floored with minimum 1 when the `integer` flag is set. -/
noncomputable def traitValue (gene : ℝ) (d : TraitDef) : ℝ :=
  let val := if d.linear then gene * d.base else d.base * Real.exp (d.k * logit gene)
  let val := max TRAIT_MIN (min TRAIT_MAX val)
  if d.integer then max 1 (⌊val⌋ : ℝ) else val

/-- The decoded trait record. -/
structure Traits where
  maxHeight : ℝ
  growthRate : ℝ
  trunkGirth : ℝ
  leafSize : ℝ
  leafCount : ℝ
  branchLength : ℝ
  leafOpacity : ℝ
  seedRange : ℝ
  seedEnergy : ℝ
  germinationSpeed : ℝ
  photoEfficiency : ℝ
  maturityAge : ℝ
  maxAge : ℝ

/-- Source `decodeTraits`: one `traitValue` per `TRAIT_DEFS` row, positionally. -/
noncomputable def decodeTraits (genes : Genes) : Traits :=
  { maxHeight := traitValue (genes 0) maxHeightDef
    growthRate := traitValue (genes 1) growthRateDef
    trunkGirth := traitValue (genes 2) trunkGirthDef
    leafSize := traitValue (genes 3) leafSizeDef
    leafCount := traitValue (genes 4) leafCountDef
    branchLength := traitValue (genes 5) branchLengthDef
    leafOpacity := traitValue (genes 6) leafOpacityDef
    seedRange := traitValue (genes 7) seedRangeDef
    seedEnergy := traitValue (genes 8) seedEnergyDef
    germinationSpeed := traitValue (genes 9) germinationSpeedDef
    photoEfficiency := traitValue (genes 10) photoEfficiencyDef
    maturityAge := traitValue (genes 11) maturityAgeDef
    maxAge := traitValue (genes 12) maxAgeDef }

/-- Source `createRandomGenome`: each founder gene is `0.35 + random() * 0.3`,
consuming `GENE_COUNT` draws starting at index `k`. -/
noncomputable def createRandomGenome (rng : ℕ → ℝ) (k : ℕ) : Genes :=
  fun i => 0.35 + rng (k + i) * 0.3

/-- Source `gaussianRandom(mean, stddev)` by the Box-Muller transform, from the two
uniform draws `u1`, `u2`. -/
noncomputable def gaussianRandom (mean stddev u1 u2 : ℝ) : ℝ :=
  let z := Real.sqrt (-2 * Real.log u1) * Real.cos (2 * Real.pi * u2)
  mean + z * stddev

/-- Source `mutateGenome(parent, mutationRate)`: per gene, add `gaussianRandom(0,
rate * 4)` noise in logit space and transform back by the sigmoid.  Gene `i`
consumes the draws at indices `k + 2i` and `k + 2i + 1` (source order). -/
noncomputable def mutateGenome (rng : ℕ → ℝ) (k : ℕ) (parent : Genes) (mutationRate : ℝ) : Genes :=
  fun i =>
    sigmoid (logit (parent i) +
      gaussianRandom 0 (mutationRate * 4) (rng (k + 2 * i)) (rng (k + 2 * i + 1)))

/-- Number of draws `mutateGenome` consumes. -/
def mutateDraws : ℕ := 2 * GENE_COUNT

/-! ## Plant (`src/simulation/Plant.ts`) -/

inductive GrowthStage where
  | Seed
  | Seedling
  | Growing
  | Mature
  | Dead
  deriving DecidableEq

inductive DeathCause where
  | energy
  | age
  | topple
  | germination
  deriving DecidableEq

noncomputable def TRUNK_MASS_SCALE : ℝ := 0.01

noncomputable def LEAF_MASS_SCALE : ℝ := 0.001

noncomputable def BRANCH_MASS_SCALE : ℝ := 0.005

noncomputable def MAINTENANCE_RATE : ℝ := 0.01

noncomputable def GROWTH_COST_RATE : ℝ := 0.05

noncomputable def LEAF_GROWTH_COST_RATE : ℝ := 0.003

noncomputable def GERMINATION_BURN_BASE : ℝ := 0.3

noncomputable def GERMINATION_BURN_MULTIPLIER : ℝ := 10

noncomputable def TOPPLE_STABILITY_FACTOR : ℝ := 0.1

noncomputable def TOPPLE_BASE_CHANCE : ℝ := 0.005

noncomputable def MATURITY_HEIGHT_FRACTION : ℝ := 0.9

noncomputable def UNREALIZED_PENALTY : ℝ := 0.5

noncomputable def SEED_BUDGET_BUFFER : ℝ := 0.5

/-- Source `leafWeight(traits)`. -/
noncomputable def leafWeight (traits : Traits) : ℝ :=
  traits.leafSize ^ (2.5 : ℝ)
    * (0.8 + traits.leafOpacity * 0.2)
    * (0.5 + traits.photoEfficiency * 0.3)

structure Plant where
  id : ℕ
  x : ℤ
  y : ℤ
  genes : Genes
  traits : Traits
  generation : ℕ
  stage : GrowthStage
  age : ℕ
  currentHeight : ℝ
  currentLeafCount : ℕ
  energy : ℝ
  biomass : ℝ
  germinationTimer : ℝ
  deathCause : Option DeathCause
  meshDirty : Bool
  prevHeight : ℝ
  prevLeafCount : ℕ

/-- The `Plant` constructor (`new Plant(x, y, genes, startEnergy, generation)`),
with the id supplied by the owner's counter. -/
noncomputable def plantNew (id : ℕ) (x y : ℤ) (genes : Genes) (startEnergy : ℝ)
    (generation : ℕ) : Plant :=
  let traits := decodeTraits genes
  { id := id, x := x, y := y, genes := genes, traits := traits, generation := generation
    stage := GrowthStage.Seed, age := 0, currentHeight := 0, currentLeafCount := 0
    energy := startEnergy, biomass := 0, germinationTimer := traits.germinationSpeed
    deathCause := none, meshDirty := true, prevHeight := 0, prevLeafCount := 0 }

def Plant.isAlive (p : Plant) : Prop := p.stage ≠ GrowthStage.Dead

instance (p : Plant) : Decidable p.isAlive := by unfold Plant.isAlive; infer_instance

def Plant.isMature (p : Plant) : Prop := p.stage = GrowthStage.Mature

instance (p : Plant) : Decidable p.isMature := by unfold Plant.isMature; infer_instance

def Plant.canGrow (p : Plant) : Prop :=
  p.stage = GrowthStage.Growing ∨ p.stage = GrowthStage.Seedling

instance (p : Plant) : Decidable p.canGrow := by unfold Plant.canGrow; infer_instance

/-- Source `Plant.die(cause)`. -/
def Plant.die (p : Plant) (cause : DeathCause) : Plant :=
  { p with stage := GrowthStage.Dead, deathCause := some cause, meshDirty := true }

/-- Source `Plant.computeBiomass()`: trunk + leaf + branch mass. -/
noncomputable def Plant.computeBiomass (p : Plant) : ℝ :=
  p.traits.trunkGirth ^ (2.3 : ℝ) * p.currentHeight ^ (1.5 : ℝ) * TRUNK_MASS_SCALE
    + (p.currentLeafCount : ℝ) * leafWeight p.traits * LEAF_MASS_SCALE
    + (p.currentLeafCount : ℝ) * p.traits.branchLength ^ (1.5 : ℝ)
        * p.traits.trunkGirth ^ (2.3 : ℝ) * BRANCH_MASS_SCALE

/-- The leaf-addition interval `max(1, floor(maturityAge / leafCount))`. -/
noncomputable def leafInterval (t : Traits) : ℤ :=
  max 1 ⌊t.maturityAge / t.leafCount⌋

/-- The energy cost of adding one leaf: `leafWeight(traits) * LEAF_GROWTH_COST_RATE`. -/
noncomputable def leafCost (t : Traits) : ℝ :=
  leafWeight t * LEAF_GROWTH_COST_RATE

/-- First half of `Plant.grow()`: the height-growth transaction. -/
noncomputable def heightGrowthStep (p : Plant) : Plant :=
  let heightGap := p.traits.maxHeight - p.currentHeight
  if 0 < heightGap then
    let growth := min p.traits.growthRate heightGap
    let growthCost := growth * p.traits.trunkGirth * GROWTH_COST_RATE
    if growthCost < p.energy then
      { p with currentHeight := p.currentHeight + growth, energy := p.energy - growthCost }
    else p
  else p

/-- Second half of `Plant.grow()`: the leaf-addition transaction. -/
noncomputable def leafGrowthStep (p : Plant) : Plant :=
  if (p.currentLeafCount : ℝ) < p.traits.leafCount then
    if (p.age : ℤ) % leafInterval p.traits = 0 then
      if leafCost p.traits < p.energy then
        { p with currentLeafCount := p.currentLeafCount + 1, energy := p.energy - leafCost p.traits }
      else p
    else p
  else p

/-- Source `Plant.grow()`: height transaction then leaf transaction, in source order. -/
noncomputable def Plant.grow (p : Plant) : Plant :=
  leafGrowthStep (heightGrowthStep p)

/-- The per-tick germination burn
`GERMINATION_BURN_BASE / max(1, germinationSpeed) * GERMINATION_BURN_MULTIPLIER`. -/
noncomputable def germinationBurnOf (t : Traits) : ℝ :=
  GERMINATION_BURN_BASE / max 1 t.germinationSpeed * GERMINATION_BURN_MULTIPLIER

/-- The `Seed`-stage branch of `Plant.tick()`: germination burn, countdown,
starve-or-sprout. -/
noncomputable def germinationStep (p : Plant) : Plant :=
  let p := { p with energy := p.energy - germinationBurnOf p.traits,
                    germinationTimer := p.germinationTimer - 1 }
  if p.energy ≤ 0 then p.die DeathCause.germination
  else if p.germinationTimer ≤ 0 then
    { p with stage := GrowthStage.Seedling, meshDirty := true }
  else p

/-- The structural-failure check of `Plant.tick()`; consumes one random draw
exactly when the stability ratio is below 1. -/
noncomputable def toppleCheck (rng : ℕ → ℝ) (k : ℕ) (p : Plant) : Plant × ℕ :=
  let stabilityRatio := p.traits.trunkGirth / (p.currentHeight * TOPPLE_STABILITY_FACTOR)
  if stabilityRatio < 1 then
    let toppleChance := (1 - stabilityRatio) * (1 - stabilityRatio) * TOPPLE_BASE_CHANCE
    (if rng k < toppleChance then p.die DeathCause.topple else p, k + 1)
  else (p, k)

/-- The stage-advancement step of `Plant.tick()`. -/
noncomputable def updateStage (p : Plant) : Plant :=
  if p.stage = GrowthStage.Seedling ∨ p.stage = GrowthStage.Growing then
    if p.traits.maxHeight * MATURITY_HEIGHT_FRACTION ≤ p.currentHeight
        ∨ p.traits.maturityAge ≤ (p.age : ℝ) then
      { p with stage := GrowthStage.Mature }
    else if p.stage = GrowthStage.Seedling ∧ 1 < p.currentHeight then
      { p with stage := GrowthStage.Growing }
    else p
  else p

/-- The maintenance deduction of `Plant.tick()`, with the unrealized-potential
multiplier for mature plants. -/
noncomputable def maintenanceStep (p : Plant) : Plant :=
  let maintenanceMultiplier : ℝ :=
    if p.isMature then
      let heightRealized := p.currentHeight / p.traits.maxHeight
      let leafRealized := (p.currentLeafCount : ℝ) / p.traits.leafCount
      let avgRealized := (heightRealized + leafRealized) / 2
      1 + (1 - avgRealized) * UNREALIZED_PENALTY
    else 1
  { p with energy := p.energy - p.biomass * MAINTENANCE_RATE * maintenanceMultiplier }

/-- The geometry-change check closing `Plant.tick()`. -/
noncomputable def meshCheck (p : Plant) : Plant :=
  if p.currentHeight ≠ p.prevHeight ∨ p.currentLeafCount ≠ p.prevLeafCount then
    { p with meshDirty := true, prevHeight := p.currentHeight,
             prevLeafCount := p.currentLeafCount }
  else p

/-- Source `if (this.canGrow) this.grow()`. -/
noncomputable def growIfAble (p : Plant) : Plant :=
  if p.canGrow then p.grow else p

/-- Source `this.biomass = this.computeBiomass()`. -/
noncomputable def updateBiomassStep (p : Plant) : Plant :=
  { p with biomass := p.computeBiomass }

/-- Source `if (this.energy <= 0) this.die('energy')`. -/
noncomputable def energyDeathCheck (p : Plant) : Plant :=
  if p.energy ≤ 0 then p.die DeathCause.energy else p

/-- The portion of `Plant.tick()` after the topple check, in source order:
growth, stage advancement, biomass, maintenance, energy death, geometry
check. -/
noncomputable def afterToppleSteps (p : Plant) : Plant :=
  meshCheck (energyDeathCheck (maintenanceStep (updateBiomassStep (updateStage (growIfAble p)))))

/-- Source `Plant.tick()`: returns the updated plant and the advanced draw counter. -/
noncomputable def Plant.tick (rng : ℕ → ℝ) (k : ℕ) (p : Plant) : Plant × ℕ :=
  if ¬ p.isAlive then (p, k)
  else
    let p1 : Plant := { p with age := p.age + 1 }
    if p1.traits.maxAge ≤ (p1.age : ℝ) then (p1.die DeathCause.age, k)
    else if p1.stage = GrowthStage.Seed then (germinationStep p1, k)
    else
      let tp := toppleCheck rng k p1
      if tp.1.stage = GrowthStage.Dead then tp
      else (afterToppleSteps tp.1, tp.2)

/-- Source `Plant.seedBudget` getter. -/
noncomputable def Plant.seedBudget (p : Plant) : ℝ :=
  if ¬ p.isMature then 0 else max 0 (p.energy - p.biomass * SEED_BUDGET_BUFFER)

/-! ## Seed (`src/simulation/Seed.ts`) -/

structure Seed where
  x : ℤ
  y : ℤ
  genes : Genes
  energy : ℝ
  generation : ℕ
  germinationTimer : ℝ
  age : ℕ

/-! ## Simulation (`src/simulation/Simulation.ts`) -/

structure SimConfig where
  gridWidth : ℤ
  gridHeight : ℤ
  initialPlants : ℕ
  maxPlants : ℕ
  mutationRate : ℝ

noncomputable def DEFAULT_CONFIG : SimConfig :=
  { gridWidth := 256, gridHeight := 256, initialPlants := 50, maxPlants := 500,
    mutationRate := 0.02 }

noncomputable def ENERGY_SCALE : ℝ := 0.01

noncomputable def REPRO_INTERVAL_FRACTION : ℝ := 0.05

def MAX_SEED_AGE : ℕ := 150

noncomputable def SEED_DISPERSAL_SCALE : ℝ := 1.0

/-- The `deathCounts` record of the simulation. -/
structure DeathCounts where
  energy : ℕ
  age : ℕ
  topple : ℕ
  germination : ℕ

def bumpCount (dc : DeathCounts) : DeathCause → DeathCounts
  | DeathCause.energy => { dc with energy := dc.energy + 1 }
  | DeathCause.age => { dc with age := dc.age + 1 }
  | DeathCause.topple => { dc with topple := dc.topple + 1 }
  | DeathCause.germination => { dc with germination := dc.germination + 1 }

structure SimState where
  config : SimConfig
  grid : Grid ℝ
  plants : List Plant
  seeds : List Seed
  tick : ℕ
  deathCounts : DeathCounts
  nextPlantId : ℕ

/-- Source `Simulation.getLeafPositions(plant)`: equal angular steps around the trunk
with an id-derived offset, heights from 60% to 100% of current height, radii
tapering toward the top. -/
noncomputable def getLeafPositions (p : Plant) : List (ℝ × ℝ × ℝ) :=
  let n := p.currentLeafCount
  let angleStep := 2 * Real.pi / max 1 (n : ℝ)
  let angleOffset := (((p.id * 2654435761) % 16777216 : ℕ) : ℝ) / 16777215 * (2 * Real.pi)
  (List.range n).map fun i =>
    let angle := angleOffset + angleStep * (i : ℝ)
    let t : ℝ := if n = 1 then 1 else (i : ℝ) / ((n : ℝ) - 1)
    let heightFraction := 0.6 + 0.4 * t
    let leafHeight := p.currentHeight * heightFraction
    let taper := 1 - t * 0.7
    let radius := p.traits.branchLength * taper
    ((p.x : ℝ) + Real.cos angle * radius, (p.y : ℝ) + Real.sin angle * radius, leafHeight)

/-- The leaf-gathering loop of `computeLightAndEnergy`: every leaf of every
living, non-Seed, leaf-bearing plant, tagged with the plant's index. -/
noncomputable def gatherLeaves : ℕ → List Plant → List (Leaf ℝ)
  | _, [] => []
  | pi, p :: ps =>
      (if p.isAlive ∧ p.stage ≠ GrowthStage.Seed ∧ p.currentLeafCount ≠ 0 then
        (getLeafPositions p).map fun pos =>
          { x := pos.1, y := pos.2.1, z := pos.2.2, leafSize := p.traits.leafSize,
            leafOpacity := p.traits.leafOpacity, photoEfficiency := p.traits.photoEfficiency,
            plantIndex := pi }
      else []) ++ gatherLeaves (pi + 1) ps

/-- Accumulate `energyByPlant`: per read, add `litArea × (1 - exp(-photoEfficiency))`
to the owning plant's slot. -/
noncomputable def tallyEnergy : List (Leaf ℝ × ℝ) → (ℕ → ℝ) → (ℕ → ℝ)
  | [], acc => acc
  | (leaf, leafEnergy) :: rest, acc =>
      let effectiveEfficiency := 1 - Real.exp (-leaf.photoEfficiency)
      tallyEnergy rest fun j =>
        if j = leaf.plantIndex then acc j + leafEnergy * effectiveEfficiency else acc j

/-- Apply the collected per-plant energy (`energy += energyByPlant[i] * ENERGY_SCALE`
when positive). -/
noncomputable def applyEnergy (energyByPlant : ℕ → ℝ) : ℕ → List Plant → List Plant
  | _, [] => []
  | i, p :: ps =>
      (if 0 < energyByPlant i then
        { p with energy := p.energy + energyByPlant i * ENERGY_SCALE }
      else p) :: applyEnergy energyByPlant (i + 1) ps

/-- Source `Simulation.computeLightAndEnergy()`: clear shadow, gather all leaves, sort
by height descending, sweep once (read lit area, then stamp), then apply the
collected energy. -/
noncomputable def computeLightAndEnergy (s : SimState) : SimState :=
  let g0 := s.grid.clearShadow
  let allLeaves := gatherLeaves 0 s.plants
  let res := sweepReads g0 (sortLeaves allLeaves)
  let energyByPlant := tallyEnergy res.1 fun _ => 0
  { s with grid := res.2, plants := applyEnergy energyByPlant 0 s.plants }

/-- Phase 2 of `step()`: tick every plant, threading the draw counter. -/
noncomputable def tickAll (rng : ℕ → ℝ) : ℕ → List Plant → List Plant × ℕ
  | k, [] => ([], k)
  | k, p :: ps =>
      let r := Plant.tick rng k p
      let rest := tickAll rng r.2 ps
      (r.1 :: rest.1, rest.2)

/-- The reproduction interval `max(1, floor(maxAge * REPRO_INTERVAL_FRACTION))`. -/
noncomputable def reproInterval (t : Traits) : ℤ :=
  max 1 ⌊t.maxAge * REPRO_INTERVAL_FRACTION⌋

/-- Source `numSeeds = floor(seedBudget / costPerSeed)`. -/
noncomputable def numSeedsOf (p : Plant) : ℤ :=
  ⌊p.seedBudget / p.traits.seedEnergy⌋

/-- The inner seed-attempt loop of `reproduce()` for one parent: draw an angle
and a distance, round to a cell, skip if out of bounds or occupied (in the
phase-start grid `g`), else create a mutated seed and deduct the cost. -/
noncomputable def seedAttempts (rng : ℕ → ℝ) (mutationRate : ℝ) (g : Grid ℝ) :
    ℕ → Plant → ℕ → Plant × List Seed × ℕ
  | k, p, 0 => (p, [], k)
  | k, p, n + 1 =>
      let angle := rng k * (2 * Real.pi)
      let effectiveRange := p.currentHeight * SEED_DISPERSAL_SCALE * p.traits.seedRange
      let dist := rng (k + 1) * effectiveRange
      let sx : ℤ := round ((p.x : ℝ) + Real.cos angle * dist)
      let sy : ℤ := round ((p.y : ℝ) + Real.sin angle * dist)
      if ¬ g.inBounds sx sy ∨ g.isOccupied sx sy then
        seedAttempts rng mutationRate g (k + 2) p n
      else
        let childGenes := mutateGenome rng (k + 2) p.genes mutationRate
        let childTraits := decodeTraits childGenes
        let sd : Seed := { x := sx, y := sy, genes := childGenes, energy := p.traits.seedEnergy,
                           generation := p.generation + 1,
                           germinationTimer := childTraits.germinationSpeed, age := 0 }
        let p1 := { p with energy := p.energy - p.traits.seedEnergy }
        let rest := seedAttempts rng mutationRate g (k + 2 + mutateDraws) p1 n
        (rest.1, sd :: rest.2.1, rest.2.2)

/-- The per-plant loop of `reproduce()`: mature plants on their reproduction
tick with a positive seed count run the attempt loop; everything checks
occupancy against the phase-start grid `g`. -/
noncomputable def reproduceStep (rng : ℕ → ℝ) (mutationRate : ℝ) (g : Grid ℝ) :
    ℕ → List Plant → List Plant × List Seed × ℕ
  | k, [] => ([], [], k)
  | k, p :: ps =>
      if p.isMature ∧ (p.age : ℤ) % reproInterval p.traits = 0 ∧ 0 < numSeedsOf p then
        let r := seedAttempts rng mutationRate g k p (numSeedsOf p).toNat
        let rest := reproduceStep rng mutationRate g r.2.2 ps
        (r.1 :: rest.1, r.2.1 ++ rest.2.1, rest.2.2)
      else
        let rest := reproduceStep rng mutationRate g k ps
        (p :: rest.1, rest.2.1, rest.2.2)

/-- The deferred reservation pass closing `reproduce()`: mark every new seed's
cell with the `-2` placeholder. -/
def occupySeedCells (g : Grid ℝ) (seeds : List Seed) : Grid ℝ :=
  seeds.foldl (fun g sd => g.occupy sd.x sd.y (-2)) g

/-- Source `Simulation.reproduce()`. -/
noncomputable def reproduce (rng : ℕ → ℝ) (k : ℕ) (s : SimState) : SimState × ℕ :=
  let r := reproduceStep rng s.config.mutationRate s.grid k s.plants
  ({ s with plants := r.1, seeds := s.seeds ++ r.2.1, grid := occupySeedCells s.grid r.2.1 },
   r.2.2)

/-- The first loop of `germinateSeeds()`: age every pending seed, vacate and
drop the expired ones, partition the rest into germinated and remaining. -/
noncomputable def ageSeeds : Grid ℝ → List Seed → Grid ℝ × List Seed × List Seed
  | g, [] => (g, [], [])
  | g, sd :: rest =>
      let sd1 := { sd with age := sd.age + 1, germinationTimer := sd.germinationTimer - 1 }
      if MAX_SEED_AGE < sd1.age then ageSeeds (g.vacate sd.x sd.y) rest
      else if sd1.germinationTimer ≤ 0 then
        let r := ageSeeds g rest
        (r.1, sd1 :: r.2.1, r.2.2)
      else
        let r := ageSeeds g rest
        (r.1, r.2.1, sd1 :: r.2.2)

/-- The second loop of `germinateSeeds()`: vacate the reservation, and spawn a
Seedling plant at height 0.5 if the population cap allows and the cell is
still free. -/
noncomputable def germinateLoop (maxPlants livingCount : ℕ) :
    ℕ → ℕ → Grid ℝ → List Seed → Grid ℝ × List Plant × ℕ
  | _, nid, g, [] => (g, [], nid)
  | added, nid, g, sd :: rest =>
      let g1 := g.vacate sd.x sd.y
      if maxPlants ≤ livingCount + added then germinateLoop maxPlants livingCount added nid g1 rest
      else if g1.isOccupied sd.x sd.y then germinateLoop maxPlants livingCount added nid g1 rest
      else
        let pl0 := plantNew nid sd.x sd.y sd.genes sd.energy sd.generation
        let pl := { pl0 with stage := GrowthStage.Seedling, currentHeight := 0.5 }
        let g2 := g1.occupy sd.x sd.y (pl.id : ℤ)
        let r := germinateLoop maxPlants livingCount (added + 1) (nid + 1) g2 rest
        (r.1, pl :: r.2.1, r.2.2)

/-- Source `Simulation.germinateSeeds()`. -/
noncomputable def germinateSeeds (s : SimState) : SimState :=
  let r := ageSeeds s.grid s.seeds
  let livingCount := (s.plants.filter fun p => decide p.isAlive).length
  let r2 := germinateLoop s.config.maxPlants livingCount 0 s.nextPlantId r.1 r.2.1
  { s with grid := r2.1, seeds := r.2.2, plants := s.plants ++ r2.2.1, nextPlantId := r2.2.2 }

/-- The loop of `cleanup()`: keep living plants; tally each dead plant's cause
and vacate its cell. -/
noncomputable def cleanupLoop : Grid ℝ → DeathCounts → List Plant → List Plant × Grid ℝ × DeathCounts
  | g, dc, [] => ([], g, dc)
  | g, dc, p :: ps =>
      if p.isAlive then
        let r := cleanupLoop g dc ps
        (p :: r.1, r.2.1, r.2.2)
      else
        let dc1 := match p.deathCause with
          | some c => bumpCount dc c
          | none => dc
        cleanupLoop (g.vacate p.x p.y) dc1 ps

/-- Source `Simulation.cleanup()`. -/
noncomputable def cleanup (s : SimState) : SimState :=
  let r := cleanupLoop s.grid s.deathCounts s.plants
  { s with plants := r.1, grid := r.2.1, deathCounts := r.2.2 }

/-- Source `Simulation.step()`: the five-phase tick pipeline, threading the draw
counter from the plant ticks into reproduction. -/
noncomputable def simStep (rng : ℕ → ℝ) (s : SimState) : SimState :=
  let s1 := { s with tick := s.tick + 1 }
  let s2 := computeLightAndEnergy s1
  let tr := tickAll rng 0 s2.plants
  let s3 := { s2 with plants := tr.1 }
  let rr := reproduce rng tr.2 s3
  cleanup (germinateSeeds rr.1)

/-- Source `Simulation.spawnInitialPlants()`: up to `initialPlants` attempts at random
cells; unoccupied cells get a random-genome plant forced to `Seedling` at
height 1. -/
noncomputable def spawnInitialPlants (rng : ℕ → ℝ) :
    ℕ → ℕ → Grid ℝ → ℕ → Grid ℝ × List Plant × ℕ
  | _, 0, g, nid => (g, [], nid)
  | k, n + 1, g, nid =>
      let x : ℤ := ⌊rng k * (g.width : ℝ)⌋
      let y : ℤ := ⌊rng (k + 1) * (g.height : ℝ)⌋
      if ¬ g.isOccupied x y then
        let genes := createRandomGenome rng (k + 2)
        let traits := decodeTraits genes
        let pl0 := plantNew nid x y genes (traits.seedEnergy * 2) 0
        let pl := { pl0 with stage := GrowthStage.Seedling, currentHeight := 1 }
        let r := spawnInitialPlants rng (k + 2 + GENE_COUNT) n (g.occupy x y (pl.id : ℤ)) (nid + 1)
        (r.1, pl :: r.2.1, r.2.2)
      else spawnInitialPlants rng (k + 2) n g nid

/-- The `Simulation` constructor: build the grid (no validation of the
configuration is performed anywhere) and spawn the initial plants. -/
noncomputable def simNew (config : SimConfig) (rng : ℕ → ℝ) : SimState :=
  let grid := gridNew ℝ config.gridWidth config.gridHeight
  let r := spawnInitialPlants rng 0 config.initialPlants grid 0
  { config := config, grid := r.1, plants := r.2.1, seeds := [], tick := 0,
    deathCounts := { energy := 0, age := 0, topple := 0, germination := 0 },
    nextPlantId := r.2.2 }

/-- The states a simulation can be in: a freshly constructed simulation, or
any state reached from one by `step()` calls (with arbitrary random draws). -/
inductive Reachable : SimState → Prop
  | init (config : SimConfig) (rng : ℕ → ℝ) : Reachable (simNew config rng)
  | step (s : SimState) (rng : ℕ → ℝ) : Reachable s → Reachable (simStep rng s)

/-- The Seed-freedom invariant of the population: no plant in the population
is in the Seed stage, no plant carries the germination death cause, and the
germination death counter is zero. -/
def SeedFree (s : SimState) : Prop :=
  (∀ p ∈ s.plants, p.stage ≠ GrowthStage.Seed
    ∧ p.deathCause ≠ some DeathCause.germination)
  ∧ s.deathCounts.germination = 0

/-! ## Concrete fixtures used by witnesses and counterexamples -/

/-- A 3×3 rational grid. -/
def gridW : Grid ℚ := gridNew ℚ 3 3

/-- A lower leaf of plant 0 at height 3. -/
def leafW1 : Leaf ℚ :=
  { x := 1, y := 1, z := 3, leafSize := 1, leafOpacity := 1, photoEfficiency := 1,
    plantIndex := 0 }

/-- A higher leaf of plant 1 at height 5, over the same spot. -/
def leafW0 : Leaf ℚ :=
  { x := 1, y := 1, z := 5, leafSize := 1, leafOpacity := 1, photoEfficiency := 1,
    plantIndex := 1 }

/-- Two overlapping leaves at distinct heights, in gathered order. -/
def leavesW : List (Leaf ℚ) := [leafW1, leafW0]

/-- A gene vector with the seedRange slot (index 7) within `1e-8` of 1 and all
other genes at the midpoint. -/
noncomputable def gC10 : Genes := fun i => if i = 7 then 1 - 1/100000000 else 1/2

/-- A fully rational trait record (leafSize 4, all other values at their
baselines). -/
noncomputable def traitsA : Traits :=
  { maxHeight := 20, growthRate := 0.2, trunkGirth := 2, leafSize := 4, leafCount := 8,
    branchLength := 8, leafOpacity := 1, seedRange := 2, seedEnergy := 35,
    germinationSpeed := 50, photoEfficiency := 1, maturityAge := 150, maxAge := 1000 }

/-- Same traits with a fully transparent leaf. -/
noncomputable def traitsB : Traits := { traitsA with leafOpacity := 0 }

/-- A fixed random stream. -/
noncomputable def rngW : ℕ → ℝ := fun _ => 1/2

/-- A dead plant with negative energy. -/
noncomputable def plantD : Plant :=
  { id := 0, x := 0, y := 0, genes := fun _ => 1/2, traits := traitsA, generation := 0,
    stage := GrowthStage.Dead, age := 3, currentHeight := 1, currentLeafCount := 0,
    energy := -1, biomass := 0, germinationTimer := 0, deathCause := some DeathCause.age,
    meshDirty := false, prevHeight := 1, prevLeafCount := 0 }

/-- A living, growing plant with ample energy. -/
noncomputable def plantG : Plant :=
  { id := 1, x := 0, y := 0, genes := fun _ => 1/2, traits := traitsA, generation := 0,
    stage := GrowthStage.Growing, age := 10, currentHeight := 1, currentLeafCount := 0,
    energy := 100, biomass := 0, germinationTimer := 0, deathCause := none,
    meshDirty := false, prevHeight := 1, prevLeafCount := 0 }

/-- A mature plant at its full genetic height with no leaves. -/
noncomputable def plantM : Plant :=
  { id := 2, x := 0, y := 0, genes := fun _ => 1/2, traits := traitsA, generation := 0,
    stage := GrowthStage.Mature, age := 10, currentHeight := 20, currentLeafCount := 0,
    energy := 100, biomass := 0, germinationTimer := 0, deathCause := none,
    meshDirty := false, prevHeight := 20, prevLeafCount := 0 }

/-- A mature parent plant with enough budget for exactly two seeds
(`floor(80/35) = 2`), on its reproduction tick (`50 % 50 = 0`). -/
noncomputable def plantR : Plant :=
  { id := 3, x := 10, y := 10, genes := fun _ => 1/2, traits := traitsA, generation := 0,
    stage := GrowthStage.Mature, age := 50, currentHeight := 5, currentLeafCount := 0,
    energy := 80, biomass := 0, germinationTimer := 0, deathCause := none,
    meshDirty := false, prevHeight := 5, prevLeafCount := 0 }

/-- A simulation state holding just the parent `plantR` on a 32×32 grid. -/
noncomputable def simR : SimState :=
  { config := { gridWidth := 32, gridHeight := 32, initialPlants := 0, maxPlants := 500,
                mutationRate := 0 },
    grid := (gridNew ℝ 32 32).occupy 10 10 3, plants := [plantR], seeds := [], tick := 0,
    deathCounts := { energy := 0, age := 0, topple := 0, germination := 0 },
    nextPlantId := 4 }

/-- A random stream sending both seed attempts of `plantR` to the same cell:
draw 0 (and 28) give angle 0, draws 1 (and 29) give half the dispersal range. -/
noncomputable def rngR : ℕ → ℝ := fun n => if n % 28 = 0 then 0 else 1/2

/-- Two overlapping leaves of two different plants at exactly the same height. -/
def tieLeaves : List (Leaf ℚ) :=
  [{ x := 1, y := 1, z := 5, leafSize := 1, leafOpacity := 1, photoEfficiency := 1,
     plantIndex := 0 },
   { x := 1, y := 1, z := 5, leafSize := 1, leafOpacity := 1, photoEfficiency := 1,
     plantIndex := 1 }]

end PlantSim

namespace PlantSim

/-! # Theorems

Helper lemmas first, then one theorem per specification claim (with witness or
counterexample theorems where required). -/

variable {α : Type*} [LinearOrderedField α] [FloorRing α]

theorem sweepReads_length (ls : List (Leaf α)) :
    ∀ g : Grid α, ((sweepReads g ls).1).length = ls.length := by
  induction ls with
  | nil => intro g; rfl
  | cons a t ih => intro g; simp [sweepReads, ih]

theorem sweepReads_append (as bs : List (Leaf α)) :
    ∀ g : Grid α, (sweepReads g (as ++ bs)).1 =
      (sweepReads g as).1 ++ (sweepReads (stampList g as) bs).1 := by
  induction as with
  | nil => intro g; simp [sweepReads, stampList]
  | cons a t ih => intro g; simp [sweepReads, stampList, ih]

theorem mem_insertLeaf {l x : Leaf α} {t : List (Leaf α)} :
    x ∈ insertLeaf l t ↔ x = l ∨ x ∈ t := by
  induction t with
  | nil => simp [insertLeaf]
  | cons h t ih => by_cases hc : h.z ≤ l.z <;> simp [insertLeaf, hc, ih] <;> tauto

theorem insertLeaf_perm (l : Leaf α) (t : List (Leaf α)) : (insertLeaf l t).Perm (l :: t) := by
  induction t with
  | nil => rfl
  | cons h t ih =>
      by_cases hc : h.z ≤ l.z
      · simp [insertLeaf, hc]
      · rw [insertLeaf, if_neg hc]
        exact (ih.cons h).trans (List.Perm.swap l h t)

theorem insertLeaf_sorted {t : List (Leaf α)} (l : Leaf α)
    (ht : t.Sorted fun a b : Leaf α => b.z ≤ a.z) :
    (insertLeaf l t).Sorted fun a b : Leaf α => b.z ≤ a.z := by
  induction t with
  | nil => simp [insertLeaf]
  | cons h t ih =>
      rw [List.sorted_cons] at ht
      by_cases hc : h.z ≤ l.z
      · rw [insertLeaf, if_pos hc, List.sorted_cons]
        refine ⟨fun b hb => ?_, List.sorted_cons.mpr ht⟩
        rcases List.mem_cons.mp hb with rfl | hb
        · exact hc
        · exact le_trans (ht.1 b hb) hc
      · rw [insertLeaf, if_neg hc, List.sorted_cons]
        refine ⟨fun b hb => ?_, ih ht.2⟩
        rcases mem_insertLeaf.mp hb with rfl | hb
        · exact le_of_not_le hc
        · exact ht.1 b hb

theorem sortLeaves_perm (ls : List (Leaf α)) : (sortLeaves ls).Perm ls := by
  induction ls with
  | nil => rfl
  | cons a t ih => exact (insertLeaf_perm a (sortLeaves t)).trans (ih.cons a)

theorem sortLeaves_sorted (ls : List (Leaf α)) :
    (sortLeaves ls).Sorted fun a b : Leaf α => b.z ≤ a.z := by
  induction ls with
  | nil => simp [sortLeaves]
  | cons a t ih => exact insertLeaf_sorted a ih

theorem sorted_split {pre post s : List (Leaf α)} {leaf : Leaf α}
    (hs : s.Sorted fun a b : Leaf α => b.z ≤ a.z) (h : s = pre ++ leaf :: post) :
    (∀ l' ∈ pre, leaf.z ≤ l'.z) ∧ (∀ l' ∈ post, l'.z ≤ leaf.z) := by
  subst h
  obtain ⟨h1, h2, h3⟩ := List.pairwise_append.mp hs
  rw [List.pairwise_cons] at h2
  exact ⟨fun l' hl' => h3 l' hl' leaf (List.mem_cons_self leaf post),
         fun l' hl' => h2.1 l' hl'⟩

/-- C1 (amended): the light pass sorts all gathered leaves by height
descending and processes them in one sweep, each leaf reading its lit area
before stamping its own shadow.  Whenever the sorted order splits as
`pre ++ leaf :: post`, the leaf's read is taken on the grid holding exactly
the stamps of the leaves of `pre`: all of height ≥ its own (so no leaf is ever
shaded by a leaf strictly below its own height), every leaf of strictly
greater height is among them (all of `post` is at height ≤ its own), and the
sorted list is a permutation of the gathered leaves.  Among leaves of exactly
equal height, the earlier-sorted one may shade the later one. -/
theorem lightSweep_topdown (g : Grid α) (leaves pre post : List (Leaf α)) (leaf : Leaf α)
    (hsplit : sortLeaves leaves = pre ++ leaf :: post) :
    (sweepReads g (sortLeaves leaves)).1 =
        (sweepReads g pre).1 ++
          (leaf, (stampList g pre).getLitArea leaf.x leaf.y leaf.leafSize leaf.leafOpacity) ::
            (sweepReads (stampLeaf (stampList g pre) leaf) post).1
    ∧ (∀ l' ∈ pre, leaf.z ≤ l'.z)
    ∧ (∀ l' ∈ post, l'.z ≤ leaf.z)
    ∧ (sortLeaves leaves).Perm leaves := by
  have hsp := sorted_split (sortLeaves_sorted leaves) hsplit
  refine ⟨?_, hsp.1, hsp.2, sortLeaves_perm leaves⟩
  rw [hsplit, sweepReads_append]
  simp [sweepReads]

/-- Witness for C1: the sweep property instantiated on a 3×3 rational grid
with two overlapping leaves at heights 5 and 3 (the lower leaf gathered
first), split at the lower leaf. -/
theorem lightSweep_topdown_witness :
    (sortLeaves leavesW = [leafW0] ++ leafW1 :: [])
    ∧ ((sweepReads gridW (sortLeaves leavesW)).1 =
          (sweepReads gridW [leafW0]).1 ++
            (leafW1, (stampList gridW [leafW0]).getLitArea leafW1.x leafW1.y
              leafW1.leafSize leafW1.leafOpacity) ::
              (sweepReads (stampLeaf (stampList gridW [leafW0]) leafW1) []).1
        ∧ (∀ l' ∈ [leafW0], leafW1.z ≤ l'.z)
        ∧ (∀ l' ∈ ([] : List (Leaf ℚ)), l'.z ≤ leafW1.z)
        ∧ (sortLeaves leavesW).Perm leavesW) := by
  have ha : sortLeaves leavesW = [leafW0] ++ leafW1 :: [] := by
    norm_num [leavesW, sortLeaves, insertLeaf, leafW0, leafW1]
  exact ⟨ha, lightSweep_topdown gridW leavesW [leafW0] [] leafW1 ha⟩

/-- Counterexample for C1 as stated: two leaves of two different plants at
exactly the same height 5 overlap on a 3×3 grid; neither has any strictly
higher leaf, so the claim predicts both read the unshaded lit area 5, but the
sweep gives the second processed leaf the fully shaded read 0 — a leaf shaded
by a leaf *at* its own height. -/
theorem lightSweep_tie_counterexample :
    gridW.getLitArea 1 1 1 1 = 5
    ∧ (sweepReads gridW (sortLeaves tieLeaves)).1.map Prod.snd = [5, 0]
    ∧ (∀ l' ∈ tieLeaves, ¬ (5 : ℚ) < l'.z)
    ∧ ((0 : ℚ) ≠ 5) := by
  refine ⟨?_, ?_, ?_, by norm_num⟩
  · norm_num [gridW, gridNew, Grid.getLitArea, Grid.getLight, Grid.inBounds, intRange,
      show ((3:ℤ)).toNat = 3 from rfl, List.range_succ, List.range_zero]
  · norm_num [tieLeaves, sortLeaves, insertLeaf, sweepReads, stampLeaf, gridW, gridNew,
      Grid.getLitArea, Grid.getLight, Grid.inBounds, Grid.stampLeafShadow, intRange,
      show ((3:ℤ)).toNat = 3 from rfl, List.range_succ, List.range_zero]
  · intro l' hl'
    fin_cases hl' <;> norm_num [tieLeaves]

/-! ### Genome lemmas (C4, C9, C10) -/

theorem logit_half : logit (1/2) = 0 := by
  have h1 : min (1 - 1/1000000) ((1:ℝ)/2) = 1/2 := by norm_num [min_def]
  have h2 : max (1/1000000) ((1:ℝ)/2) = 1/2 := by norm_num [max_def]
  simp only [logit, h1, h2]
  norm_num [Real.log_one]

theorem logit_two_inv : logit (2⁻¹ : ℝ) = 0 := by
  rw [show ((2:ℝ)⁻¹) = 1/2 by norm_num]
  exact logit_half

theorem sigmoid_pos (x : ℝ) : 0 < sigmoid x := by
  unfold sigmoid
  positivity

theorem sigmoid_lt_one (x : ℝ) : sigmoid x < 1 := by
  unfold sigmoid
  rw [div_lt_one (by positivity)]
  have := Real.exp_pos (-x)
  linarith

/-- The sigmoid inverts the (clamped) logit exactly. -/
theorem sigmoid_logit (x : ℝ) :
    sigmoid (logit x) = max (1/1000000) (min (1 - 1/1000000) x) := by
  set c : ℝ := max (1/1000000) (min (1 - 1/1000000) x) with hc
  have hc0 : (0:ℝ) < c := lt_of_lt_of_le (by norm_num) (le_max_left _ _)
  have hcle : c ≤ 1 - 1/1000000 := by
    rw [hc]
    refine max_le (by norm_num) ?_
    exact min_le_left _ _
  have hc1 : c < 1 := lt_of_le_of_lt hcle (by norm_num)
  have h1c : (0:ℝ) < 1 - c := by linarith
  have hdiv : (0:ℝ) < c / (1 - c) := div_pos hc0 h1c
  simp only [sigmoid, logit, ← hc]
  rw [Real.exp_neg, Real.exp_log hdiv]
  rw [inv_div]
  field_simp

/-- With mutation rate 0, mutation reduces to the logit clamp of each gene. -/
theorem mutateGenome_rate_zero (rng : ℕ → ℝ) (k : ℕ) (parent : Genes) (i : Fin GENE_COUNT) :
    mutateGenome rng k parent 0 i =
      max (1/1000000) (min (1 - 1/1000000) (parent i)) := by
  simp [mutateGenome, gaussianRandom, sigmoid_logit]

/-- C4 (amended): decoding gene 0.5 through the non-linear mapping yields each
definition's exact baseline value, and decoding gene 1 through the linear
mapping yields the baseline; but linear decoding of gene 0 yields the global
minimum clamp `TRAIT_MIN = 1e-4`, not 0. -/
theorem traitValue_baseline :
    (∀ d ∈ TRAIT_DEFS, d.linear = false → traitValue (1/2) d = d.base)
    ∧ (∀ d ∈ TRAIT_DEFS, d.linear = true → traitValue 1 d = d.base)
    ∧ (∀ d ∈ TRAIT_DEFS, d.linear = true → traitValue 0 d = TRAIT_MIN) := by
  refine ⟨?_, ?_, ?_⟩ <;> intro d hd hl <;>
    fin_cases hd <;>
    simp_all [traitValue, logit_half, logit_two_inv, TRAIT_MIN, TRAIT_MAX, TRAIT_DEFS, maxHeightDef,
      growthRateDef, trunkGirthDef, leafSizeDef, leafCountDef, branchLengthDef,
      leafOpacityDef, seedRangeDef, seedEnergyDef, germinationSpeedDef, photoEfficiencyDef,
      maturityAgeDef, maxAgeDef, min_def, max_def] <;>
    norm_num

/-- Witness for C4's amended theorem: the non-linear `maxHeight` definition at
gene 0.5 and the linear `seedRange` definition at gene 1 both reproduce their
baselines. -/
theorem traitValue_baseline_witness :
    (maxHeightDef ∈ TRAIT_DEFS ∧ maxHeightDef.linear = false
      ∧ traitValue (1/2) maxHeightDef = maxHeightDef.base)
    ∧ (seedRangeDef ∈ TRAIT_DEFS ∧ seedRangeDef.linear = true
      ∧ traitValue 1 seedRangeDef = seedRangeDef.base) := by
  refine ⟨⟨by simp [TRAIT_DEFS], rfl, ?_⟩, ⟨by simp [TRAIT_DEFS], rfl, ?_⟩⟩
  · exact traitValue_baseline.1 maxHeightDef (by simp [TRAIT_DEFS]) rfl
  · exact traitValue_baseline.2.1 seedRangeDef (by simp [TRAIT_DEFS]) rfl

/-- Counterexample for C4 as stated: decoding gene 0 for the linear
`leafOpacity` definition yields the clamp floor `1e-4`, not 0. -/
theorem traitValue_linear_zero_counterexample :
    leafOpacityDef ∈ TRAIT_DEFS ∧ leafOpacityDef.linear = true
    ∧ traitValue 0 leafOpacityDef = 1/10000 ∧ (1/10000 : ℝ) ≠ 0 := by
  refine ⟨by simp [TRAIT_DEFS], rfl, ?_, by norm_num⟩
  norm_num [traitValue, leafOpacityDef, TRAIT_MIN, TRAIT_MAX, min_def, max_def]

/-- C9: for every parent gene vector inside (0,1) and every (finite) mutation
rate, every child gene produced by `mutateGenome` is strictly between 0 and 1:
the logit-space noise plus sigmoid construction approaches the extremes only
asymptotically. -/
theorem mutateGenome_open_interval (rng : ℕ → ℝ) (k : ℕ) (parent : Genes) (rate : ℝ)
    (hp : ∀ i, 0 < parent i ∧ parent i < 1) :
    ∀ i, 0 < mutateGenome rng k parent rate i ∧ mutateGenome rng k parent rate i < 1 := by
  intro i
  exact ⟨sigmoid_pos _, sigmoid_lt_one _⟩

/-- Witness for C9 at the all-midpoint parent with mutation rate 1. -/
theorem mutateGenome_open_interval_witness :
    (∀ i : Fin GENE_COUNT, 0 < ((fun _ => (1:ℝ)/2) : Genes) i
      ∧ ((fun _ => (1:ℝ)/2) : Genes) i < 1)
    ∧ (∀ i, 0 < mutateGenome (fun _ => 1/2) 0 (fun _ => (1:ℝ)/2) 1 i
      ∧ mutateGenome (fun _ => 1/2) 0 (fun _ => (1:ℝ)/2) 1 i < 1) :=
  ⟨fun _ => by norm_num,
   mutateGenome_open_interval (fun _ => 1/2) 0 (fun _ => (1:ℝ)/2) 1 (fun _ => by norm_num)⟩

/-- C10 (amended): for every gene vector whose genes lie inside the logit
clamp range `[1e-6, 1 - 1e-6]`, decoding the rate-0 mutation of the vector
gives exactly the same trait record as decoding the vector itself (the sigmoid
and clamped logit are mutual inverses there). -/
theorem decode_mutate_rate_zero (rng : ℕ → ℝ) (k : ℕ) (g : Genes)
    (hg : ∀ i, 1/1000000 ≤ g i ∧ g i ≤ 1 - 1/1000000) :
    decodeTraits (mutateGenome rng k g 0) = decodeTraits g := by
  have hge : mutateGenome rng k g 0 = g := by
    funext i
    rw [mutateGenome_rate_zero]
    rcases hg i with ⟨h1, h2⟩
    rw [min_eq_right h2, max_eq_right h1]
  rw [hge]

/-- Witness for C10's amended theorem at the all-midpoint gene vector. -/
theorem decode_mutate_rate_zero_witness :
    (∀ i : Fin GENE_COUNT, 1/1000000 ≤ ((fun _ => (1:ℝ)/2) : Genes) i
      ∧ ((fun _ => (1:ℝ)/2) : Genes) i ≤ 1 - 1/1000000)
    ∧ decodeTraits (mutateGenome (fun _ => 1/2) 0 (fun _ => (1:ℝ)/2) 0) =
        decodeTraits (fun _ => (1:ℝ)/2) :=
  ⟨fun _ => by norm_num,
   decode_mutate_rate_zero (fun _ => 1/2) 0 (fun _ => (1:ℝ)/2) (fun _ => by norm_num)⟩

/-- Counterexample for C10 as stated: the gene vector `gC10` lies strictly
inside (0,1), yet rate-0 mutation moves its linear seedRange gene from
`1 - 1e-8` to the clamp `1 - 1e-6`, so the decoded seedRange changes from
`2 - 2e-8` to `2 - 2e-6` — a difference of about `1.98e-6`, far beyond
double-precision tolerance. -/
theorem decode_mutate_rate_zero_counterexample :
    (∀ i, 0 < gC10 i ∧ gC10 i < 1)
    ∧ (decodeTraits (mutateGenome (fun _ => 1/2) 0 gC10 0)).seedRange = 2 - 2/1000000
    ∧ (decodeTraits gC10).seedRange = 2 - 2/100000000
    ∧ decodeTraits (mutateGenome (fun _ => 1/2) 0 gC10 0) ≠ decodeTraits gC10 := by
  have hmut : (decodeTraits (mutateGenome (fun _ => 1/2) 0 gC10 0)).seedRange
      = 2 - 2/1000000 := by
    have h7 : mutateGenome (fun _ => 1/2) 0 gC10 0 7 = 1 - 1/1000000 := by
      rw [mutateGenome_rate_zero]
      norm_num [gC10, min_def, max_def]
    simp only [decodeTraits]
    rw [h7]
    norm_num [traitValue, seedRangeDef, TRAIT_MIN, TRAIT_MAX, min_def, max_def]
  have horig : (decodeTraits gC10).seedRange = 2 - 2/100000000 := by
    simp only [decodeTraits]
    norm_num [gC10, traitValue, seedRangeDef, TRAIT_MIN, TRAIT_MAX, min_def, max_def]
  refine ⟨?_, hmut, horig, ?_⟩
  · intro i
    by_cases h : i = 7 <;> simp [gC10, h] <;> norm_num
  · intro heq
    have := congrArg Traits.seedRange heq
    rw [hmut, horig] at this
    norm_num at this

/-! ### Plant lemmas (C3, C7, C8; reused by the simulation invariants) -/

theorem heightGrowthStep_fields (p : Plant) :
    (heightGrowthStep p).currentLeafCount = p.currentLeafCount
    ∧ (heightGrowthStep p).age = p.age
    ∧ (heightGrowthStep p).traits = p.traits
    ∧ (heightGrowthStep p).stage = p.stage
    ∧ (heightGrowthStep p).deathCause = p.deathCause := by
  simp only [heightGrowthStep]
  split_ifs <;> exact ⟨rfl, rfl, rfl, rfl, rfl⟩

theorem leafGrowthStep_fields (p : Plant) :
    (leafGrowthStep p).currentHeight = p.currentHeight
    ∧ (leafGrowthStep p).age = p.age
    ∧ (leafGrowthStep p).traits = p.traits
    ∧ (leafGrowthStep p).stage = p.stage
    ∧ (leafGrowthStep p).deathCause = p.deathCause := by
  simp only [leafGrowthStep]
  split_ifs <;> exact ⟨rfl, rfl, rfl, rfl, rfl⟩

theorem grow_stage_cause (p : Plant) :
    (p.grow).stage = p.stage ∧ (p.grow).deathCause = p.deathCause := by
  unfold Plant.grow
  refine ⟨?_, ?_⟩
  · rw [(leafGrowthStep_fields _).2.2.2.1, (heightGrowthStep_fields _).2.2.2.1]
  · rw [(leafGrowthStep_fields _).2.2.2.2, (heightGrowthStep_fields _).2.2.2.2]

theorem growIfAble_stage_cause (p : Plant) :
    (growIfAble p).stage = p.stage ∧ (growIfAble p).deathCause = p.deathCause := by
  unfold growIfAble
  split_ifs
  · exact grow_stage_cause p
  · exact ⟨rfl, rfl⟩

theorem updateStage_cases (p : Plant) :
    ((updateStage p).stage = GrowthStage.Mature ∨ (updateStage p).stage = GrowthStage.Growing
      ∨ (updateStage p).stage = p.stage)
    ∧ (updateStage p).deathCause = p.deathCause
    ∧ (updateStage p).energy = p.energy := by
  simp only [updateStage]
  split_ifs <;> simp

theorem maintenanceStep_fields (p : Plant) :
    (maintenanceStep p).stage = p.stage ∧ (maintenanceStep p).deathCause = p.deathCause := by
  exact ⟨rfl, rfl⟩

theorem updateBiomassStep_fields (p : Plant) :
    (updateBiomassStep p).stage = p.stage ∧ (updateBiomassStep p).deathCause = p.deathCause
    ∧ (updateBiomassStep p).energy = p.energy := by
  exact ⟨rfl, rfl, rfl⟩

theorem energyDeathCheck_cases (p : Plant) :
    energyDeathCheck p = p.die DeathCause.energy ∨ energyDeathCheck p = p := by
  unfold energyDeathCheck
  split_ifs <;> simp

theorem energyDeathCheck_spec (p : Plant) :
    (energyDeathCheck p).energy ≤ 0 → (energyDeathCheck p).stage = GrowthStage.Dead := by
  unfold energyDeathCheck
  split_ifs with h
  · intro _; rfl
  · intro hle; exact absurd hle h

theorem meshCheck_fields (p : Plant) :
    (meshCheck p).stage = p.stage ∧ (meshCheck p).deathCause = p.deathCause
    ∧ (meshCheck p).energy = p.energy := by
  unfold meshCheck
  split_ifs <;> exact ⟨rfl, rfl, rfl⟩

theorem afterToppleSteps_energy_dead (p : Plant) :
    (afterToppleSteps p).energy ≤ 0 → (afterToppleSteps p).stage = GrowthStage.Dead := by
  unfold afterToppleSteps
  intro h
  rw [(meshCheck_fields _).2.2] at h
  rw [(meshCheck_fields _).1]
  exact energyDeathCheck_spec _ h

theorem afterToppleSteps_stage (p : Plant) :
    (afterToppleSteps p).stage = GrowthStage.Dead
    ∨ (afterToppleSteps p).stage = GrowthStage.Mature
    ∨ (afterToppleSteps p).stage = GrowthStage.Growing
    ∨ (afterToppleSteps p).stage = p.stage := by
  unfold afterToppleSteps
  rw [(meshCheck_fields _).1]
  rcases energyDeathCheck_cases (maintenanceStep (updateBiomassStep (updateStage (growIfAble p)))) with h | h
  · left; rw [h]; rfl
  · rw [h, (maintenanceStep_fields _).1, (updateBiomassStep_fields _).1]
    rcases (updateStage_cases (growIfAble p)).1 with h1 | h1 | h1
    · right; left; exact h1
    · right; right; left; exact h1
    · right; right; right; rw [h1, (growIfAble_stage_cause p).1]

theorem afterToppleSteps_dichotomy (p : Plant) (hp : p.stage ≠ GrowthStage.Dead) :
    ((afterToppleSteps p).stage ≠ GrowthStage.Dead
      ∧ (afterToppleSteps p).deathCause = p.deathCause)
    ∨ ((afterToppleSteps p).stage = GrowthStage.Dead
        ∧ (afterToppleSteps p).deathCause = some DeathCause.energy) := by
  unfold afterToppleSteps
  rw [(meshCheck_fields _).1, (meshCheck_fields _).2.1]
  rcases energyDeathCheck_cases (maintenanceStep (updateBiomassStep (updateStage (growIfAble p)))) with h | h
  · right; rw [h]; exact ⟨rfl, rfl⟩
  · left
    rw [h, (maintenanceStep_fields _).1, (maintenanceStep_fields _).2,
      (updateBiomassStep_fields _).1, (updateBiomassStep_fields _).2.1,
      (updateStage_cases _).2.1, (growIfAble_stage_cause p).2]
    refine ⟨?_, rfl⟩
    rcases (updateStage_cases (growIfAble p)).1 with h1 | h1 | h1 <;> rw [h1] <;>
      simp_all [(growIfAble_stage_cause p).1]

theorem germinationStep_cases (p : Plant) :
    germinationStep p =
        ({ p with energy := p.energy - germinationBurnOf p.traits,
                  germinationTimer := p.germinationTimer - 1 }).die DeathCause.germination
    ∨ (0 < (germinationStep p).energy
        ∧ (germinationStep p).deathCause = p.deathCause
        ∧ ((germinationStep p).stage = GrowthStage.Seedling
            ∨ (germinationStep p).stage = p.stage)) := by
  simp only [germinationStep]
  split_ifs with h1 h2
  · left; rfl
  · right
    exact ⟨by simpa using lt_of_not_le h1, rfl, Or.inl rfl⟩
  · right
    exact ⟨by simpa using lt_of_not_le h1, rfl, Or.inr rfl⟩

theorem germinationStep_dichotomy (p : Plant) (hp : p.stage ≠ GrowthStage.Dead) :
    ((germinationStep p).stage ≠ GrowthStage.Dead
      ∧ (germinationStep p).deathCause = p.deathCause)
    ∨ ((germinationStep p).stage = GrowthStage.Dead
        ∧ (germinationStep p).deathCause = some DeathCause.germination) := by
  rcases germinationStep_cases p with h | ⟨-, hc, hst⟩
  · right; rw [h]; exact ⟨rfl, rfl⟩
  · left
    refine ⟨?_, hc⟩
    rcases hst with h1 | h1 <;> rw [h1] <;> simp_all

theorem toppleCheck_cases (rng : ℕ → ℝ) (k : ℕ) (p : Plant) :
    (toppleCheck rng k p).1 = p.die DeathCause.topple ∨ (toppleCheck rng k p).1 = p := by
  simp only [toppleCheck]
  split_ifs <;> simp

/-- The five branches `Plant.tick` can take, by source order. -/
theorem tick_cases (rng : ℕ → ℝ) (k : ℕ) (p : Plant) :
    (¬ p.isAlive ∧ Plant.tick rng k p = (p, k))
    ∨ (p.isAlive ∧ (Plant.tick rng k p).1 = ({ p with age := p.age + 1 }).die DeathCause.age)
    ∨ (p.isAlive ∧ p.stage = GrowthStage.Seed
        ∧ (Plant.tick rng k p).1 = germinationStep { p with age := p.age + 1 })
    ∨ (p.isAlive ∧ p.stage ≠ GrowthStage.Seed
        ∧ (Plant.tick rng k p).1 = ({ p with age := p.age + 1 }).die DeathCause.topple)
    ∨ (p.isAlive ∧ p.stage ≠ GrowthStage.Seed
        ∧ (Plant.tick rng k p).1 = afterToppleSteps { p with age := p.age + 1 }) := by
  by_cases ha : p.isAlive
  · simp only [Plant.tick, if_neg (not_not_intro ha)]
    by_cases hage : ({ p with age := p.age + 1 } : Plant).traits.maxAge
        ≤ (({ p with age := p.age + 1 } : Plant).age : ℝ)
    · right; left
      refine ⟨ha, ?_⟩
      simp only [if_pos hage]
    · simp only [if_neg hage]
      by_cases hseed : ({ p with age := p.age + 1 } : Plant).stage = GrowthStage.Seed
      · right; right; left
        refine ⟨ha, hseed, ?_⟩
        simp only [if_pos hseed]
      · simp only [if_neg hseed]
        rcases toppleCheck_cases rng k { p with age := p.age + 1 } with ht | ht
        · by_cases hd : (toppleCheck rng k { p with age := p.age + 1 }).1.stage
              = GrowthStage.Dead
          · right; right; right; left
            refine ⟨ha, hseed, ?_⟩
            simp only [if_pos hd]
            exact ht
          · exact absurd (by rw [ht]; rfl) hd
        · have hd : ¬ (toppleCheck rng k { p with age := p.age + 1 }).1.stage
              = GrowthStage.Dead := by
            rw [ht]
            simpa [Plant.isAlive] using ha
          right; right; right; right
          refine ⟨ha, hseed, ?_⟩
          simp only [if_neg hd]
          rw [ht]
  · left
    exact ⟨ha, by simp [Plant.tick, if_pos (by simpa using ha)]⟩

/-- C3 (amended): in a growing organism's tick, a leaf is added exactly when
the current leaf count is below the leafCount trait, the age is an exact
multiple of `max(1, floor(maturityAge / leafCount))`, and the leaf's cost is
strictly below the energy left after the same call's height-growth
transaction; the cost is `leafSize^2.5 × (0.8 + 0.2·leafOpacity) ×
(0.5 + 0.3·photoEfficiency) × 0.003` — proportional to the 2.5 power of leaf
size and dependent on opacity and efficiency, not a cubic function of leaf
size. -/
theorem leaf_addition_iff (p : Plant) :
    ((p.grow).currentLeafCount = p.currentLeafCount + 1 ↔
      ((p.currentLeafCount : ℝ) < p.traits.leafCount
        ∧ (p.age : ℤ) % leafInterval p.traits = 0
        ∧ leafCost p.traits < (heightGrowthStep p).energy))
    ∧ leafCost p.traits = p.traits.leafSize ^ (2.5 : ℝ)
        * (0.8 + p.traits.leafOpacity * 0.2) * (0.5 + p.traits.photoEfficiency * 0.3)
        * LEAF_GROWTH_COST_RATE := by
  constructor
  · unfold Plant.grow
    obtain ⟨hqc, hqa, hqt, -, -⟩ := heightGrowthStep_fields p
    simp only [leafGrowthStep, hqc, hqa, hqt]
    split_ifs with h1 h2 h3 <;> simp_all <;> omega
  · unfold leafCost leafWeight
    ring

/-- C7: growth transactions are gated by strict affordability: a height or
leaf transaction leaves energy either unchanged or strictly positive, a height
change implies its cost was strictly below the pre-attempt energy, and
whenever a whole tick ends with non-positive energy the organism is Dead when
the tick returns. -/
theorem growth_energy_gate (p : Plant) (rng : ℕ → ℝ) (k : ℕ) :
    ((heightGrowthStep p).energy = p.energy ∨ 0 < (heightGrowthStep p).energy)
    ∧ ((p.grow).energy = (heightGrowthStep p).energy ∨ 0 < (p.grow).energy)
    ∧ ((heightGrowthStep p).currentHeight ≠ p.currentHeight →
        min p.traits.growthRate (p.traits.maxHeight - p.currentHeight)
          * p.traits.trunkGirth * GROWTH_COST_RATE < p.energy)
    ∧ ((Plant.tick rng k p).1.energy ≤ 0 → (Plant.tick rng k p).1.stage = GrowthStage.Dead) := by
  refine ⟨?_, ?_, ?_, ?_⟩
  · simp only [heightGrowthStep]
    split_ifs with h1 h2
    · right; simpa using sub_pos.mpr h2
    · left; rfl
    · left; rfl
  · unfold Plant.grow
    simp only [leafGrowthStep]
    split_ifs with h1 h2 h3
    · right; simpa using sub_pos.mpr h3
    · left; rfl
    · left; rfl
    · left; rfl
  · simp only [heightGrowthStep]
    split_ifs with h1 h2
    · intro _; exact h2
    · intro h; exact absurd rfl h
    · intro h; exact absurd rfl h
  · rcases tick_cases rng k p with ⟨ha, ht⟩ | ⟨ha, ht⟩ | ⟨ha, hs, ht⟩ | ⟨ha, hs, ht⟩
        | ⟨ha, hs, ht⟩
    · rw [ht]
      intro _
      simpa [Plant.isAlive] using ha
    · rw [ht]; intro _; rfl
    · rw [ht]
      rcases germinationStep_cases { p with age := p.age + 1 } with h | ⟨hpos, -, -⟩
      · rw [h]; intro _; rfl
      · intro hle; exact absurd (lt_of_lt_of_le hpos hle) (lt_irrefl 0)
    · rw [ht]; intro _; rfl
    · rw [ht]
      exact afterToppleSteps_energy_dead _

/-- Witness for C7: the growing plant's height transaction is strictly
affordable, and the dead plant's tick returns non-positive energy with stage
Dead. -/
theorem growth_energy_gate_witness :
    ((heightGrowthStep plantG).currentHeight ≠ plantG.currentHeight)
    ∧ (min plantG.traits.growthRate (plantG.traits.maxHeight - plantG.currentHeight)
        * plantG.traits.trunkGirth * GROWTH_COST_RATE < plantG.energy)
    ∧ ((Plant.tick rngW 0 plantD).1.energy ≤ 0)
    ∧ (Plant.tick rngW 0 plantD).1.stage = GrowthStage.Dead := by
  have hh : (heightGrowthStep plantG).currentHeight ≠ plantG.currentHeight := by
    simp only [heightGrowthStep, plantG, traitsA, GROWTH_COST_RATE]
    norm_num [min_def]
  have he : (Plant.tick rngW 0 plantD).1.energy ≤ 0 := by
    simp only [Plant.tick, Plant.isAlive, plantD]
    norm_num
  exact ⟨hh, (growth_energy_gate plantG rngW 0).2.2.1 hh, he,
    (growth_energy_gate plantD rngW 0).2.2.2 he⟩

/-- C8: a Dead organism's tick is the identity (no further state mutation and
no way out of Dead); the invariant "stage is Dead iff deathCause is set" is
preserved by every tick; and a tick that leaves the organism alive leaves
deathCause untouched, so the cause is written exactly once, at the transition
into Dead. -/
theorem dead_is_terminal (p : Plant) (rng : ℕ → ℝ) (k : ℕ) :
    (p.stage = GrowthStage.Dead → Plant.tick rng k p = (p, k))
    ∧ ((p.stage = GrowthStage.Dead ↔ p.deathCause ≠ none) →
        ((Plant.tick rng k p).1.stage = GrowthStage.Dead ↔
          (Plant.tick rng k p).1.deathCause ≠ none))
    ∧ (p.stage ≠ GrowthStage.Dead → (Plant.tick rng k p).1.stage ≠ GrowthStage.Dead →
        (Plant.tick rng k p).1.deathCause = p.deathCause) := by
  refine ⟨?_, ?_, ?_⟩
  · intro hd
    simp [Plant.tick, Plant.isAlive, hd]
  · intro hinv
    rcases tick_cases rng k p with ⟨ha, ht⟩ | ⟨ha, ht⟩ | ⟨ha, hs, ht⟩ | ⟨ha, hs, ht⟩
        | ⟨ha, hs, ht⟩
    · rw [ht]; exact hinv
    · rw [ht]
      simp [Plant.die]
    · rw [ht]
      have hcause : p.deathCause = none := by
        by_contra hc
        exact ha (hinv.mpr hc)
      have halive : ({ p with age := p.age + 1 } : Plant).stage ≠ GrowthStage.Dead := ha
      rcases germinationStep_dichotomy { p with age := p.age + 1 } halive with ⟨h1, h2⟩ | ⟨h1, h2⟩
      · constructor
        · intro hd
          exact absurd hd h1
        · intro hne
          rw [h2] at hne
          exact absurd (by simp [hcause]) hne
      · rw [h1, h2]
        simp
    · rw [ht]
      simp [Plant.die]
    · rw [ht]
      have hcause : p.deathCause = none := by
        by_contra hc
        exact ha (hinv.mpr hc)
      have halive : ({ p with age := p.age + 1 } : Plant).stage ≠ GrowthStage.Dead := ha
      rcases afterToppleSteps_dichotomy { p with age := p.age + 1 } halive with ⟨h1, h2⟩ | ⟨h1, h2⟩
      · constructor
        · intro hd
          exact absurd hd h1
        · intro hne
          rw [h2] at hne
          exact absurd (by simp [hcause]) hne
      · rw [h1, h2]
        simp
  · intro ha hd
    rcases tick_cases rng k p with ⟨ha2, ht⟩ | ⟨ha2, ht⟩ | ⟨ha2, hs, ht⟩ | ⟨ha2, hs, ht⟩
        | ⟨ha2, hs, ht⟩
    · rw [ht]
    · rw [ht] at hd
      exact absurd rfl hd
    · rw [ht] at hd ⊢
      have halive : ({ p with age := p.age + 1 } : Plant).stage ≠ GrowthStage.Dead := ha
      rcases germinationStep_dichotomy { p with age := p.age + 1 } halive with ⟨-, h2⟩ | ⟨h1, -⟩
      · exact h2
      · exact absurd h1 hd
    · rw [ht] at hd
      exact absurd rfl hd
    · rw [ht] at hd ⊢
      have halive : ({ p with age := p.age + 1 } : Plant).stage ≠ GrowthStage.Dead := ha
      rcases afterToppleSteps_dichotomy { p with age := p.age + 1 } halive with ⟨-, h2⟩ | ⟨h1, -⟩
      · exact h2
      · exact absurd h1 hd

theorem rpow_sq_five_halves (b : ℝ) (hb : 0 ≤ b) :
    ((b ^ (2 : ℕ) : ℝ)) ^ (2.5 : ℝ) = b ^ (5 : ℕ) := by
  rw [← Real.rpow_natCast b 2, ← Real.rpow_mul hb]
  rw [show (((2 : ℕ) : ℝ)) * 2.5 = ((5 : ℕ) : ℝ) by norm_num, Real.rpow_natCast]

/-- Counterexample for C3's "cubic in leafSize" clause: the leaf cost is not a
function of the leafSize trait at all (two trait records with the same leaf
size but different opacity have different costs), and even with the other
traits fixed it is proportional to `leafSize^2.5`, which no cubic polynomial
matches (checked at leaf sizes 1, 4, 9, 16, 25). -/
theorem leafCost_not_cubic_counterexample :
    traitsA.leafSize = traitsB.leafSize
    ∧ leafCost traitsA ≠ leafCost traitsB
    ∧ ¬ ∃ a b c d : ℝ, ∀ s : ℝ,
        leafCost { traitsA with leafSize := s } = a * s^3 + b * s^2 + c * s + d := by
  have h4 : (0:ℝ) < (4:ℝ) ^ (2.5:ℝ) := Real.rpow_pos_of_pos (by norm_num) _
  refine ⟨rfl, ?_, ?_⟩
  · simp only [leafCost, leafWeight, LEAF_GROWTH_COST_RATE, traitsA, traitsB]
    intro h
    nlinarith [h4]
  · rintro ⟨a, b, c, d, h⟩
    have hv1 : ((1:ℝ)) ^ (2.5:ℝ) = 1 := Real.one_rpow _
    have hv4 : ((4:ℝ)) ^ (2.5:ℝ) = 32 := by
      rw [show (4:ℝ) = 2 ^ (2:ℕ) by norm_num, rpow_sq_five_halves 2 (by norm_num)]
      norm_num
    have hv9 : ((9:ℝ)) ^ (2.5:ℝ) = 243 := by
      rw [show (9:ℝ) = 3 ^ (2:ℕ) by norm_num, rpow_sq_five_halves 3 (by norm_num)]
      norm_num
    have hv16 : ((16:ℝ)) ^ (2.5:ℝ) = 1024 := by
      rw [show (16:ℝ) = 4 ^ (2:ℕ) by norm_num, rpow_sq_five_halves 4 (by norm_num)]
      norm_num
    have hv25 : ((25:ℝ)) ^ (2.5:ℝ) = 3125 := by
      rw [show (25:ℝ) = 5 ^ (2:ℕ) by norm_num, rpow_sq_five_halves 5 (by norm_num)]
      norm_num
    have e1 := h 1
    have e4 := h 4
    have e9 := h 9
    have e16 := h 16
    have e25 := h 25
    simp only [leafCost, leafWeight, LEAF_GROWTH_COST_RATE, traitsA] at e1 e4 e9 e16 e25
    rw [hv1] at e1
    rw [hv4] at e4
    rw [hv9] at e9
    rw [hv16] at e16
    rw [hv25] at e25
    linarith

/-- Witness for C8, at a concrete dead plant (frozen tick, invariant
preserved) and a concrete living mature plant (tick leaves it alive with its
null deathCause untouched). -/
theorem dead_is_terminal_witness :
    (plantD.stage = GrowthStage.Dead ∧ Plant.tick rngW 0 plantD = (plantD, 0))
    ∧ ((plantD.stage = GrowthStage.Dead ↔ plantD.deathCause ≠ none)
        ∧ ((Plant.tick rngW 0 plantD).1.stage = GrowthStage.Dead ↔
            (Plant.tick rngW 0 plantD).1.deathCause ≠ none))
    ∧ (plantM.stage ≠ GrowthStage.Dead ∧ (Plant.tick rngW 0 plantM).1.stage ≠ GrowthStage.Dead
        ∧ (Plant.tick rngW 0 plantM).1.deathCause = plantM.deathCause) := by
  have hd : plantD.stage = GrowthStage.Dead := rfl
  have hinv : plantD.stage = GrowthStage.Dead ↔ plantD.deathCause ≠ none := by
    simp [plantD]
  have hM : plantM.stage ≠ GrowthStage.Dead := by simp [plantM]
  have hM2 : (Plant.tick rngW 0 plantM).1.stage ≠ GrowthStage.Dead := by
    have h23 : (2:ℝ) ^ (2.3:ℝ) ≤ 8 := by
      calc (2:ℝ) ^ (2.3:ℝ) ≤ (2:ℝ) ^ ((3:ℕ):ℝ) :=
            Real.rpow_le_rpow_of_exponent_le (by norm_num) (by norm_num)
        _ = 8 := by rw [Real.rpow_natCast]; norm_num
    have h15 : (20:ℝ) ^ (1.5:ℝ) ≤ 400 := by
      calc (20:ℝ) ^ (1.5:ℝ) ≤ (20:ℝ) ^ ((2:ℕ):ℝ) :=
            Real.rpow_le_rpow_of_exponent_le (by norm_num) (by norm_num)
        _ = 400 := by rw [Real.rpow_natCast]; norm_num
    have h23p : (0:ℝ) ≤ (2:ℝ) ^ (2.3:ℝ) := Real.rpow_nonneg (by norm_num) _
    have h15p : (0:ℝ) ≤ (20:ℝ) ^ (1.5:ℝ) := Real.rpow_nonneg (by norm_num) _
    have htick : (Plant.tick rngW 0 plantM).1 =
        afterToppleSteps { plantM with age := plantM.age + 1 } := by
      simp only [Plant.tick, Plant.isAlive, plantM, traitsA]
      norm_num [toppleCheck, TOPPLE_STABILITY_FACTOR, rngW,
        show ¬ (GrowthStage.Mature = GrowthStage.Dead) from by decide,
        show ¬ (GrowthStage.Mature = GrowthStage.Seed) from by decide]
    rw [htick]
    have hgrow : growIfAble { plantM with age := plantM.age + 1 }
        = { plantM with age := plantM.age + 1 } := by
      simp [growIfAble, Plant.canGrow, plantM]
    have hstage : updateStage { plantM with age := plantM.age + 1 }
        = { plantM with age := plantM.age + 1 } := by
      simp [updateStage, plantM]
    unfold afterToppleSteps
    rw [(meshCheck_fields _).1, hgrow, hstage]
    have henergy : ¬ (maintenanceStep
        (updateBiomassStep { plantM with age := plantM.age + 1 })).energy ≤ 0 := by
      simp only [maintenanceStep, updateBiomassStep, Plant.computeBiomass, Plant.isMature,
        plantM, traitsA, MAINTENANCE_RATE, UNREALIZED_PENALTY, TRUNK_MASS_SCALE,
        LEAF_MASS_SCALE, BRANCH_MASS_SCALE]
      norm_num
      nlinarith [h23, h15, h23p, h15p]
    unfold energyDeathCheck
    rw [if_neg henergy]
    simp [maintenanceStep, updateBiomassStep, plantM]
  exact ⟨⟨hd, (dead_is_terminal plantD rngW 0).1 hd⟩,
         ⟨hinv, (dead_is_terminal plantD rngW 0).2.1 hinv⟩,
         ⟨hM, hM2, (dead_is_terminal plantM rngW 0).2.2 hM hM2⟩⟩

/-! ### Simulation lemmas: reproduction and seed reservation (C2) -/

theorem occupy_inBounds (g : Grid α) (x y pid a b : ℤ) :
    (g.occupy x y pid).inBounds a b ↔ g.inBounds a b := by
  unfold Grid.occupy
  split_ifs <;> exact Iff.rfl

theorem occupy_occupied_cases (g : Grid α) (x y pid a b : ℤ) :
    (g.occupy x y pid).occupied a b = g.occupied a b
    ∨ (g.occupy x y pid).occupied a b = pid := by
  unfold Grid.occupy
  split_ifs with h
  · by_cases hab : a = x ∧ b = y
    · right; simp [hab]
    · left; simp [hab]
  · left; rfl

theorem occupy_occupied_self (g : Grid α) (x y pid : ℤ) (h : g.inBounds x y) :
    (g.occupy x y pid).occupied x y = pid := by
  unfold Grid.occupy
  rw [if_pos h]
  simp

theorem occupySeedCells_cases (seeds : List Seed) :
    ∀ (g : Grid ℝ) (a b : ℤ),
      (occupySeedCells g seeds).occupied a b = g.occupied a b
      ∨ (occupySeedCells g seeds).occupied a b = -2 := by
  induction seeds with
  | nil => intro g a b; left; rfl
  | cons sd rest ih =>
      intro g a b
      have hstep : occupySeedCells g (sd :: rest)
          = occupySeedCells (g.occupy sd.x sd.y (-2)) rest := rfl
      rw [hstep]
      rcases ih (g.occupy sd.x sd.y (-2)) a b with h | h
      · rw [h]
        exact occupy_occupied_cases g sd.x sd.y (-2) a b
      · right; exact h

theorem occupySeedCells_mem (seeds : List Seed) :
    ∀ (g : Grid ℝ) (sd : Seed), sd ∈ seeds → g.inBounds sd.x sd.y →
      (occupySeedCells g seeds).occupied sd.x sd.y = -2 := by
  induction seeds with
  | nil => intro g sd h _; exact absurd h (List.not_mem_nil sd)
  | cons x rest ih =>
      intro g sd hmem hin
      have hstep : occupySeedCells g (x :: rest)
          = occupySeedCells (g.occupy x.x x.y (-2)) rest := rfl
      rw [hstep]
      rcases List.mem_cons.mp hmem with rfl | hmem2
      · rcases occupySeedCells_cases rest (g.occupy sd.x sd.y (-2)) sd.x sd.y with h | h
        · rw [h]
          exact occupy_occupied_self g sd.x sd.y (-2) hin
        · exact h
      · exact ih _ sd hmem2 ((occupy_inBounds g x.x x.y (-2) sd.x sd.y).mpr hin)

theorem seedAttempts_new_seeds (rng : ℕ → ℝ) (mrate : ℝ) (g : Grid ℝ) :
    ∀ (n : ℕ) (k : ℕ) (p : Plant) (sd : Seed),
      sd ∈ (seedAttempts rng mrate g k p n).2.1 →
        g.inBounds sd.x sd.y ∧ ¬ g.isOccupied sd.x sd.y := by
  intro n
  induction n with
  | zero => intro k p sd h; exact absurd h (List.not_mem_nil sd)
  | succ m ih =>
      intro k p sd h
      simp only [seedAttempts] at h
      split_ifs at h with hc
      · exact ih _ _ sd h
      · push_neg at hc
        rcases List.mem_cons.mp h with rfl | h2
        · exact ⟨hc.1, hc.2⟩
        · exact ih _ _ sd h2

theorem reproduceStep_new_seeds (rng : ℕ → ℝ) (mrate : ℝ) (g : Grid ℝ) :
    ∀ (ps : List Plant) (k : ℕ) (sd : Seed),
      sd ∈ (reproduceStep rng mrate g k ps).2.1 →
        g.inBounds sd.x sd.y ∧ ¬ g.isOccupied sd.x sd.y := by
  intro ps
  induction ps with
  | nil => intro k sd h; exact absurd h (List.not_mem_nil sd)
  | cons p rest ih =>
      intro k sd h
      simp only [reproduceStep] at h
      split_ifs at h with hc
      · rcases List.mem_append.mp h with h1 | h1
        · exact seedAttempts_new_seeds rng mrate g _ _ _ sd h1
        · exact ih _ sd h1
      · exact ih _ sd h

/-- C2 (amended): every seed created during a reproduction phase lands on a
cell that is in bounds and unoccupied in the grid as it stood at the start of
the phase (occupancy checks run against the phase-start grid), and when the
phase ends the seed's cell carries the `-2` reservation marker.  Because the
markers are written only after the whole phase, two seeds created in the same
phase may share one cell, so the pending seeds need not occupy pairwise
distinct cells. -/
theorem reproduce_seed_reservation (rng : ℕ → ℝ) (k : ℕ) (s : SimState) :
    ∀ sd ∈ ((reproduce rng k s).1).seeds,
      sd ∈ s.seeds ∨
        (s.grid.inBounds sd.x sd.y ∧ ¬ s.grid.isOccupied sd.x sd.y
          ∧ ((reproduce rng k s).1).grid.occupied sd.x sd.y = -2) := by
  intro sd hmem
  have hseeds : ((reproduce rng k s).1).seeds
      = s.seeds ++ (reproduceStep rng s.config.mutationRate s.grid k s.plants).2.1 := rfl
  have hgrid : ((reproduce rng k s).1).grid
      = occupySeedCells s.grid (reproduceStep rng s.config.mutationRate s.grid k s.plants).2.1 :=
    rfl
  rw [hseeds] at hmem
  rcases List.mem_append.mp hmem with h | h
  · left; exact h
  · right
    obtain ⟨hin, hocc⟩ :=
      reproduceStep_new_seeds rng s.config.mutationRate s.grid s.plants k sd h
    refine ⟨hin, hocc, ?_⟩
    rw [hgrid]
    exact occupySeedCells_mem _ s.grid sd h hin

/-! ### The constructors perform no validation (C5) -/

/-- C5 (the code as it stands): neither the `Grid` constructor nor the
`Simulation` constructor validates its configuration.  Constructing a grid
with width 0 (a non-positive dimension) succeeds and yields a queryable
instance whose every cell is out of bounds, and constructing a simulation with
width 0 and a zero maximum population succeeds as well — no error path
exists. -/
theorem construction_no_validation :
    (gridNew ℝ 0 5).width = 0 ∧ (gridNew ℝ 0 5).height = 5
    ∧ (∀ x y : ℤ, (gridNew ℝ 0 5).isOccupied x y)
    ∧ (∀ x y : ℤ, (gridNew ℝ 0 5).getLight x y = 0)
    ∧ (simNew { gridWidth := 0, gridHeight := 5, initialPlants := 0, maxPlants := 0,
                mutationRate := 0.02 } rngW).config.maxPlants = 0
    ∧ (simNew { gridWidth := 0, gridHeight := 5, initialPlants := 0, maxPlants := 0,
                mutationRate := 0.02 } rngW).plants = [] := by
  refine ⟨rfl, rfl, ?_, ?_, rfl, rfl⟩
  · intro x y
    left
    rintro ⟨h1, h2, -⟩
    simp only [gridNew] at h2
    omega
  · intro x y
    rw [Grid.getLight, if_neg]
    rintro ⟨h1, h2, -⟩
    simp only [gridNew] at h2
    omega

noncomputable instance : Inhabited Seed :=
  ⟨{ x := 0, y := 0, genes := fun _ => 0, energy := 0, generation := 0,
     germinationTimer := 0, age := 0 }⟩

theorem plantR_mod : (plantR.age : ℤ) % reproInterval plantR.traits = 0 := by
  norm_num [plantR, traitsA, reproInterval, REPRO_INTERVAL_FRACTION]

theorem plantR_numSeeds : numSeedsOf plantR = 2 := by
  norm_num [numSeedsOf, Plant.seedBudget, Plant.isMature, plantR, traitsA, SEED_BUDGET_BUFFER]

/-- Both seed attempts of `plantR` under `rngR` land on cell (15, 10). -/
theorem simR_attempts_proj :
    ((seedAttempts rngR 0 simR.grid 0 plantR 2).2.1).map (fun sd => (sd.x, sd.y))
      = [((15 : ℤ), (10 : ℤ)), (15, 10)] := by
  norm_num [seedAttempts, rngR, plantR, traitsA, SEED_DISPERSAL_SCALE, mutateDraws,
    GENE_COUNT, Real.cos_zero, Real.sin_zero, round_eq, simR, Grid.isOccupied,
    Grid.inBounds, Grid.occupy, gridNew]

/-- The seeds created by the reproduction phase on `simR` under `rngR`. -/
theorem simR_seeds_proj :
    (((reproduce rngR 0 simR).1).seeds).map (fun sd => (sd.x, sd.y))
      = [((15 : ℤ), (10 : ℤ)), (15, 10)] := by
  have h1 : ((reproduce rngR 0 simR).1).seeds
      = simR.seeds ++ (reproduceStep rngR simR.config.mutationRate simR.grid 0 simR.plants).2.1 :=
    rfl
  have hcond : plantR.isMature ∧ ((plantR.age : ℤ) % reproInterval plantR.traits = 0)
      ∧ 0 < numSeedsOf plantR :=
    ⟨rfl, plantR_mod, by rw [plantR_numSeeds]; norm_num⟩
  rw [h1]
  have h2 : simR.seeds = [] := rfl
  have h3 : simR.plants = [plantR] := rfl
  have h4 : simR.config.mutationRate = 0 := rfl
  rw [h2, h3, h4, List.nil_append]
  simp only [reproduceStep]
  rw [if_pos hcond, plantR_numSeeds, show ((2 : ℤ)).toNat = 2 from rfl, List.append_nil]
  exact simR_attempts_proj

/-- Witness for C2's amended theorem: the first seed created on `simR` is a
new seed, in bounds and unoccupied at phase start, and its cell carries the
reservation marker afterwards. -/
theorem reproduce_seed_reservation_witness :
    (((reproduce rngR 0 simR).1).seeds.head! ∈ ((reproduce rngR 0 simR).1).seeds)
    ∧ (((reproduce rngR 0 simR).1).seeds.head! ∈ simR.seeds ∨
        (simR.grid.inBounds ((reproduce rngR 0 simR).1).seeds.head!.x
            ((reproduce rngR 0 simR).1).seeds.head!.y
          ∧ ¬ simR.grid.isOccupied ((reproduce rngR 0 simR).1).seeds.head!.x
              ((reproduce rngR 0 simR).1).seeds.head!.y
          ∧ ((reproduce rngR 0 simR).1).grid.occupied
              ((reproduce rngR 0 simR).1).seeds.head!.x
              ((reproduce rngR 0 simR).1).seeds.head!.y = -2)) := by
  have hne : ((reproduce rngR 0 simR).1).seeds ≠ [] := by
    intro h
    have := simR_seeds_proj
    rw [h] at this
    simp at this
  have hmem := List.head!_mem_self hne
  exact ⟨hmem, reproduce_seed_reservation rngR 0 simR _ hmem⟩

/-- Counterexample for C2's pairwise-distinctness clause: on `simR` one
reproduction phase creates two pending seeds on the same cell (15, 10),
because occupancy is only marked after the whole phase. -/
theorem reproduce_duplicate_cells_counterexample :
    ((((reproduce rngR 0 simR).1).seeds).map (fun sd => (sd.x, sd.y))
        = [((15 : ℤ), (10 : ℤ)), (15, 10)])
    ∧ ¬ (((reproduce rngR 0 simR).1).seeds.Pairwise
          fun a b : Seed => (a.x, a.y) ≠ (b.x, b.y)) := by
  refine ⟨simR_seeds_proj, ?_⟩
  intro hp
  have h2 : ((((reproduce rngR 0 simR).1).seeds).map (fun sd => (sd.x, sd.y))).Pairwise
      (fun a b => a ≠ b) :=
    hp.map _ (fun a b h => h)
  rw [simR_seeds_proj] at h2
  exact (List.pairwise_cons.mp h2).1 (15, 10) (by simp) rfl

/-! ### The population never contains Seed-stage plants (C6) -/

theorem spawnInitial_plants_spec (rng : ℕ → ℝ) :
    ∀ (n k : ℕ) (g : Grid ℝ) (nid : ℕ),
      ∀ p ∈ (spawnInitialPlants rng k n g nid).2.1,
        p.stage = GrowthStage.Seedling ∧ p.deathCause = none := by
  intro n
  induction n with
  | zero => intro k g nid p h; exact absurd h (List.not_mem_nil p)
  | succ m ih =>
      intro k g nid p h
      simp only [spawnInitialPlants] at h
      split_ifs at h with hc
      · exact ih _ _ _ p h
      · rcases List.mem_cons.mp h with rfl | h2
        · exact ⟨rfl, rfl⟩
        · exact ih _ _ _ p h2

theorem simNew_SeedFree (cfg : SimConfig) (rng : ℕ → ℝ) : SeedFree (simNew cfg rng) := by
  constructor
  · intro p hp
    have h := spawnInitial_plants_spec rng cfg.initialPlants 0
      (gridNew ℝ cfg.gridWidth cfg.gridHeight) 0 p hp
    refine ⟨?_, ?_⟩
    · rw [h.1]; simp
    · rw [h.2]; simp
  · rfl

theorem applyEnergy_mem (e : ℕ → ℝ) :
    ∀ (ps : List Plant) (i : ℕ) (q : Plant), q ∈ applyEnergy e i ps →
      ∃ p ∈ ps, q.stage = p.stage ∧ q.deathCause = p.deathCause := by
  intro ps
  induction ps with
  | nil => intro i q h; exact absurd h (List.not_mem_nil q)
  | cons p rest ih =>
      intro i q h
      rcases List.mem_cons.mp h with rfl | h2
      · refine ⟨p, List.mem_cons_self p rest, ?_⟩
        by_cases h0 : 0 < e i <;> simp [h0]
      · obtain ⟨p', hp', hq⟩ := ih (i + 1) q h2
        exact ⟨p', List.mem_cons_of_mem _ hp', hq⟩

theorem computeLightAndEnergy_mem (s : SimState) :
    ∀ q ∈ (computeLightAndEnergy s).plants,
      ∃ p ∈ s.plants, q.stage = p.stage ∧ q.deathCause = p.deathCause := by
  intro q h
  exact applyEnergy_mem _ s.plants 0 q h

theorem tickAll_mem (rng : ℕ → ℝ) :
    ∀ (ps : List Plant) (k : ℕ) (q : Plant), q ∈ (tickAll rng k ps).1 →
      ∃ p ∈ ps, ∃ k', q = (Plant.tick rng k' p).1 := by
  intro ps
  induction ps with
  | nil => intro k q h; exact absurd h (List.not_mem_nil q)
  | cons p rest ih =>
      intro k q h
      rcases List.mem_cons.mp h with rfl | h2
      · exact ⟨p, List.mem_cons_self p rest, k, rfl⟩
      · obtain ⟨p', hp', k', hq⟩ := ih _ q h2
        exact ⟨p', List.mem_cons_of_mem _ hp', k', hq⟩

theorem tick_preserves_nonSeed (rng : ℕ → ℝ) (k : ℕ) (p : Plant)
    (h : p.stage ≠ GrowthStage.Seed ∧ p.deathCause ≠ some DeathCause.germination) :
    (Plant.tick rng k p).1.stage ≠ GrowthStage.Seed
    ∧ (Plant.tick rng k p).1.deathCause ≠ some DeathCause.germination := by
  rcases tick_cases rng k p with ⟨ha, ht⟩ | ⟨ha, ht⟩ | ⟨ha, hs, ht⟩ | ⟨ha, hs, ht⟩
      | ⟨ha, hs, ht⟩
  · rw [ht]; exact h
  · rw [ht]
    exact ⟨by simp [Plant.die], by simp [Plant.die]⟩
  · exact absurd hs h.1
  · rw [ht]
    exact ⟨by simp [Plant.die], by simp [Plant.die]⟩
  · rw [ht]
    constructor
    · rcases afterToppleSteps_stage { p with age := p.age + 1 } with h1 | h1 | h1 | h1 <;>
        rw [h1] <;> simp_all
    · rcases afterToppleSteps_dichotomy { p with age := p.age + 1 } ha with ⟨-, h2⟩ | ⟨-, h2⟩ <;>
        rw [h2]
      · exact h.2
      · simp

theorem seedAttempts_plant (rng : ℕ → ℝ) (mrate : ℝ) (g : Grid ℝ) :
    ∀ (n k : ℕ) (p : Plant),
      (seedAttempts rng mrate g k p n).1.stage = p.stage
      ∧ (seedAttempts rng mrate g k p n).1.deathCause = p.deathCause := by
  intro n
  induction n with
  | zero => intro k p; exact ⟨rfl, rfl⟩
  | succ m ih =>
      intro k p
      simp only [seedAttempts]
      split_ifs with hc
      · exact ih _ p
      · exact ih _ { p with energy := p.energy - p.traits.seedEnergy }

theorem reproduceStep_plants_mem (rng : ℕ → ℝ) (mrate : ℝ) (g : Grid ℝ) :
    ∀ (ps : List Plant) (k : ℕ) (q : Plant), q ∈ (reproduceStep rng mrate g k ps).1 →
      ∃ p ∈ ps, q.stage = p.stage ∧ q.deathCause = p.deathCause := by
  intro ps
  induction ps with
  | nil => intro k q h; exact absurd h (List.not_mem_nil q)
  | cons p rest ih =>
      intro k q h
      simp only [reproduceStep] at h
      split_ifs at h with hc
      · rcases List.mem_cons.mp h with h1 | h2
        · subst h1
          exact ⟨p, List.mem_cons_self p rest, seedAttempts_plant rng mrate g _ _ p⟩
        · obtain ⟨p', hp', hq⟩ := ih _ q h2
          exact ⟨p', List.mem_cons_of_mem _ hp', hq⟩
      · rcases List.mem_cons.mp h with h1 | h2
        · exact ⟨p, List.mem_cons_self p rest, by rw [h1], by rw [h1]⟩
        · obtain ⟨p', hp', hq⟩ := ih _ q h2
          exact ⟨p', List.mem_cons_of_mem _ hp', hq⟩

theorem germinateLoop_plants_spec (mp lc : ℕ) :
    ∀ (seeds : List Seed) (added nid : ℕ) (g : Grid ℝ),
      ∀ p ∈ (germinateLoop mp lc added nid g seeds).2.1,
        p.stage = GrowthStage.Seedling ∧ p.deathCause = none := by
  intro seeds
  induction seeds with
  | nil => intro added nid g p h; exact absurd h (List.not_mem_nil p)
  | cons sd rest ih =>
      intro added nid g p h
      simp only [germinateLoop] at h
      split_ifs at h with h1 h2
      · exact ih _ _ _ p h
      · exact ih _ _ _ p h
      · rcases List.mem_cons.mp h with rfl | h3
        · exact ⟨rfl, rfl⟩
        · exact ih _ _ _ p h3

theorem cleanupLoop_spec :
    ∀ (ps : List Plant) (g : Grid ℝ) (dc : DeathCounts),
      (∀ p ∈ ps, p.deathCause ≠ some DeathCause.germination) →
        (∀ q ∈ (cleanupLoop g dc ps).1, q ∈ ps)
        ∧ (cleanupLoop g dc ps).2.2.germination = dc.germination := by
  intro ps
  induction ps with
  | nil => intro g dc _; exact ⟨fun q h => absurd h (List.not_mem_nil q), rfl⟩
  | cons p rest ih =>
      intro g dc hc
      simp only [cleanupLoop]
      split_ifs with ha
      · obtain ⟨hsub, hcount⟩ := ih g dc (fun p' hp' => hc p' (List.mem_cons_of_mem _ hp'))
        refine ⟨fun q hq => ?_, hcount⟩
        rcases List.mem_cons.mp hq with rfl | hq2
        · exact List.mem_cons_self q rest
        · exact List.mem_cons_of_mem _ (hsub q hq2)
      · have hcp := hc p (List.mem_cons_self p rest)
        have hdc : (match p.deathCause with
            | some c => bumpCount dc c
            | none => dc).germination = dc.germination := by
          rcases hcause : p.deathCause with - | c
          · rfl
          · cases c <;> simp_all [bumpCount]
        obtain ⟨hsub, hcount⟩ := ih (g.vacate p.x p.y) _
          (fun p' hp' => hc p' (List.mem_cons_of_mem _ hp'))
        exact ⟨fun q hq => List.mem_cons_of_mem _ (hsub q hq), hcount.trans hdc⟩

theorem simStep_SeedFree (rng : ℕ → ℝ) (s : SimState) (h : SeedFree s) :
    SeedFree (simStep rng s) := by
  obtain ⟨hplants, hcount⟩ := h
  set s1 : SimState := { s with tick := s.tick + 1 } with hs1
  set s2 : SimState := computeLightAndEnergy s1 with hs2
  set tr := tickAll rng 0 s2.plants with htr
  set s3 : SimState := { s2 with plants := tr.1 } with hs3
  set rr := reproduce rng tr.2 s3 with hrr
  set s4 : SimState := germinateSeeds rr.1 with hs4
  have hstep : simStep rng s = cleanup s4 := rfl
  have hQ2 : ∀ q ∈ s2.plants,
      q.stage ≠ GrowthStage.Seed ∧ q.deathCause ≠ some DeathCause.germination := by
    intro q hq
    obtain ⟨p, hp, h1, h2⟩ := computeLightAndEnergy_mem s1 q hq
    rw [h1, h2]
    exact hplants p hp
  have hQ3 : ∀ q ∈ s3.plants,
      q.stage ≠ GrowthStage.Seed ∧ q.deathCause ≠ some DeathCause.germination := by
    intro q hq
    obtain ⟨p, hp, k', hq2⟩ := tickAll_mem rng s2.plants 0 q hq
    rw [hq2]
    exact tick_preserves_nonSeed rng k' p (hQ2 p hp)
  have hQrr : ∀ q ∈ rr.1.plants,
      q.stage ≠ GrowthStage.Seed ∧ q.deathCause ≠ some DeathCause.germination := by
    intro q hq
    have hq' : q ∈ (reproduceStep rng s3.config.mutationRate s3.grid tr.2 s3.plants).1 := hq
    obtain ⟨p, hp, h1, h2⟩ :=
      reproduceStep_plants_mem rng s3.config.mutationRate s3.grid s3.plants tr.2 q hq'
    rw [h1, h2]
    exact hQ3 p hp
  have hQ4 : ∀ q ∈ s4.plants,
      q.stage ≠ GrowthStage.Seed ∧ q.deathCause ≠ some DeathCause.germination := by
    intro q hq
    have hs4p : s4.plants = rr.1.plants ++
        (germinateLoop rr.1.config.maxPlants
          ((rr.1.plants.filter fun p => decide p.isAlive).length) 0
          rr.1.nextPlantId (ageSeeds rr.1.grid rr.1.seeds).1
          (ageSeeds rr.1.grid rr.1.seeds).2.1).2.1 := rfl
    rw [hs4p] at hq
    rcases List.mem_append.mp hq with h1 | h1
    · exact hQrr q h1
    · have hsp := germinateLoop_plants_spec rr.1.config.maxPlants
        ((rr.1.plants.filter fun p => decide p.isAlive).length)
        (ageSeeds rr.1.grid rr.1.seeds).2.1 0 rr.1.nextPlantId
        (ageSeeds rr.1.grid rr.1.seeds).1 q h1
      rw [hsp.1, hsp.2]
      exact ⟨by simp, by simp⟩
  have hcount4 : s4.deathCounts.germination = 0 := hcount
  rw [hstep]
  obtain ⟨hsub, hcnt⟩ :=
    cleanupLoop_spec s4.plants s4.grid s4.deathCounts (fun p hp => (hQ4 p hp).2)
  constructor
  · intro p hp
    exact hQ4 p (hsub p hp)
  · exact hcnt.trans hcount4

/-- C6: in every reachable state of a simulation, no plant in the population
is in the Seed stage — both creation paths (initial seeding and germination)
force Seedling before insertion — and consequently the `germination` entry of
the death-cause counter stays 0 after every step. -/
theorem reachable_no_seed_stage (s : SimState) (h : Reachable s) :
    (∀ p ∈ s.plants, p.stage ≠ GrowthStage.Seed)
    ∧ s.deathCounts.germination = 0 := by
  have hsf : SeedFree s := by
    induction h with
    | init cfg rng => exact simNew_SeedFree cfg rng
    | step s' rng _ ih => exact simStep_SeedFree rng s' ih
  exact ⟨fun p hp => (hsf.1 p hp).1, hsf.2⟩

/-- Witness for C6 at a freshly constructed simulation and at one step of it. -/
theorem reachable_no_seed_stage_witness :
    (Reachable (simStep rngW (simNew simR.config rngW))
      ∧ (∀ p ∈ (simStep rngW (simNew simR.config rngW)).plants,
          p.stage ≠ GrowthStage.Seed)
      ∧ (simStep rngW (simNew simR.config rngW)).deathCounts.germination = 0) := by
  have hr : Reachable (simStep rngW (simNew simR.config rngW)) :=
    Reachable.step _ rngW (Reachable.init simR.config rngW)
  have h := reachable_no_seed_stage _ hr
  exact ⟨hr, h.1, h.2⟩

end PlantSim
